import Mathlib

/-! Verification of the Streaming-Video-Server-and-Client core.

The definitions below are a shallow embedding of the Rust sources of the
repository (`src/rtp.rs`, `src/rtsp.rs`, `src/server_logic.rs`,
`src/client_logic.rs`).  Machine integers are modelled as `Nat` with
explicit truncation (`% 2^w`) exactly where the Rust code can wrap;
byte strings are `List Nat`; text is `List Char`; fallible functions
return `Except`/`Option`.
-/

namespace StreamingCore

/-! ## RTP packet codec (src/rtp.rs)

`RtpPacket`, `RtpPacket.encode` and `RtpPacket.decode` mirror the Rust
structure and its two methods.  `u8`/`u16`/`u32` fields become `Nat`;
`Bytes` becomes `List Nat`.  Big-endian serialisation (`to_be_bytes`,
`from_be_bytes`) is written with division and remainder by powers of
two; the bit operations of `encode`/`decode` keep the source's shifts,
ors and masks.
-/

def HEADER_SIZE : Nat := 12

def RTP_VERSION : Nat := 2

/-- Model of Rust `RtpPacket` (src/rtp.rs lines 14-25). -/
structure RtpPacket where
  version : Nat
  padding : Bool
  extension : Bool
  cc : Nat
  marker : Bool
  payload_type : Nat
  sequence_number : Nat
  timestamp : Nat
  ssrc : Nat
  payload : List Nat
deriving Repr, DecidableEq

/-- Model of `RtpPacket::new` (src/rtp.rs lines 29-48). -/
def RtpPacket.new (payload_type sequence_number timestamp ssrc : Nat)
    (payload : List Nat) : RtpPacket :=
  { version := RTP_VERSION
    padding := false
    extension := false
    cc := 0
    marker := false
    payload_type := payload_type
    sequence_number := sequence_number
    timestamp := timestamp
    ssrc := ssrc
    payload := payload }

/-- Model of `u16::to_be_bytes` applied to a `u16` value. -/
def be16 (n : Nat) : List Nat := [n / 2 ^ 8 % 256, n % 256]

/-- Model of `u32::to_be_bytes` applied to a `u32` value. -/
def be32 (n : Nat) : List Nat :=
  [n / 2 ^ 24 % 256, n / 2 ^ 16 % 256, n / 2 ^ 8 % 256, n % 256]

/-- Model of `u16::from_be_bytes` on two bytes. -/
def fromBe16 (a b : Nat) : Nat := a * 2 ^ 8 + b

/-- Model of `u32::from_be_bytes` on four bytes. -/
def fromBe32 (a b c d : Nat) : Nat := a * 2 ^ 24 + b * 2 ^ 16 + c * 2 ^ 8 + d

/-- Model of `RtpPacket::encode` (src/rtp.rs lines 51-68).  Byte 0 is
`(version << 6) | (padding << 5) | (extension << 4) | cc`; the Rust
shift `version << 6` is on `u8`, hence the `% 256`.  Byte 1 is
`(marker << 7) | payload_type`; then the three big-endian fields and
the payload, unmodified. -/
def RtpPacket.encode (p : RtpPacket) : List Nat :=
  ((p.version <<< 6) % 256 ||| (p.padding.toNat <<< 5) |||
      (p.extension.toNat <<< 4) ||| p.cc)
    :: ((p.marker.toNat <<< 7) ||| p.payload_type)
    :: (be16 p.sequence_number ++ be32 p.timestamp ++ be32 p.ssrc ++ p.payload)

/-- Error cases of `RtpPacket::decode`: the "RTP packet too small" and
"Invalid RTP version" `anyhow` errors of src/rtp.rs. -/
inductive RtpError where
  | sizeError
  | versionError
deriving Repr, DecidableEq

/-- Model of `RtpPacket::decode` (src/rtp.rs lines 71-108).  The match
on twelve leading bytes is the `data.len() < HEADER_SIZE` size check;
the remaining bytes are the payload; the version field is validated
against `RTP_VERSION` and nothing else is validated. -/
def RtpPacket.decode (data : List Nat) : Except RtpError RtpPacket :=
  match data with
  | b0 :: b1 :: b2 :: b3 :: b4 :: b5 :: b6 :: b7 :: b8 :: b9 :: b10 :: b11 :: payload =>
    let version := b0 >>> 6
    if version ≠ RTP_VERSION then .error .versionError
    else
      .ok
        { version := version
          padding := (b0 >>> 5) &&& 1 == 1
          extension := (b0 >>> 4) &&& 1 == 1
          cc := b0 &&& 0x0F
          marker := (b1 >>> 7) &&& 1 == 1
          payload_type := b1 &&& 0x7F
          sequence_number := fromBe16 b2 b3
          timestamp := fromBe32 b4 b5 b6 b7
          ssrc := fromBe32 b8 b9 b10 b11
          payload := payload }
  | _ => .error .sizeError

/-! ## Text utilities

Models of the Rust string operations used by src/rtsp.rs and
src/client_logic.rs, over `List Char`.
-/

abbrev Str := List Char

/-- Model of `char::is_whitespace` over the ASCII range (space, tab,
newline, vertical tab, form feed, carriage return). -/
def isWS (c : Char) : Bool :=
  c = ' ' || c = '\t' || c = '\n' || c = '\x0b' || c = '\x0c' || c = '\r'

/-- Model of Rust `str::split(sep)`: every separator occurrence splits,
empty segments included. -/
def splitSep (sep : Char) : Str → List Str
  | [] => [[]]
  | c :: rest =>
    if c = sep then [] :: splitSep sep rest
    else
      match splitSep sep rest with
      | [] => [[c]]
      | l :: ls => (c :: l) :: ls

/-- Strip one trailing carriage return, as Rust `str::lines` does per line. -/
def stripCR (s : Str) : Str :=
  if s.getLast? = some '\r' then s.dropLast else s

/-- Model of Rust `str::lines`: split on newline, drop the final empty
segment produced by a trailing newline, strip one trailing carriage
return from each line. -/
def rustLines (s : Str) : List Str :=
  let parts := splitSep '\n' s
  let parts := if parts.getLast? = some [] then parts.dropLast else parts
  parts.map stripCR

/-- Accumulator worker for `splitWS`; `acc` holds the current token
reversed. -/
def splitWSAux : Str → Str → List Str
  | acc, [] => if acc.isEmpty then [] else [acc.reverse]
  | acc, c :: rest =>
    if isWS c then
      if acc.isEmpty then splitWSAux [] rest else acc.reverse :: splitWSAux [] rest
    else splitWSAux (c :: acc) rest

/-- Model of Rust `str::split_whitespace`: whitespace runs separate
tokens, no empty tokens are produced. -/
def splitWS (s : Str) : List Str := splitWSAux [] s

/-- Model of Rust `str::trim`. -/
def trimStr (s : Str) : Str := ((s.dropWhile isWS).reverse.dropWhile isWS).reverse

/-- Model of Rust `str::split_once(sep)`. -/
def splitOnce (sep : Char) : Str → Option (Str × Str)
  | [] => none
  | c :: rest =>
    if c = sep then some ([], rest)
    else
      match splitOnce sep rest with
      | none => none
      | some (a, b) => some (c :: a, b)

/-- Model of Rust `str::strip_prefix`: remove a leading occurrence of
`pre`, or `none`. -/
def dropPre : Str → Str → Option Str
  | [], s => some s
  | _ :: _, [] => none
  | p :: ps, c :: cs => if c = p then dropPre ps cs else none

/-- Model of Rust `str::to_lowercase` over the ASCII range. -/
def lowerStr (s : Str) : Str := s.map Char.toLower

/-- Value of a digit string, most significant digit first. -/
def digitsVal (s : Str) : Nat := s.foldl (fun acc c => acc * 10 + (c.toNat - 48)) 0

/-- Model of Rust `str::parse::<uN>` for an `N`-bit unsigned integer:
an optional leading plus sign, then at least one ASCII digit, and the
value must fit in `N` bits. -/
def parseUInt (bits : Nat) (s : Str) : Option Nat :=
  let digits := if s.head? = some '+' then s.tail else s
  if digits ≠ [] ∧ digits.all Char.isDigit ∧ digitsVal digits < 2 ^ bits then
    some (digitsVal digits)
  else none

/-- Lookup in a header association list; the entry inserted last wins,
as for repeated `HashMap::insert`. -/
def getHeader (hs : List (Str × Str)) (k : Str) : Option Str :=
  hs.foldl (fun acc kv => if kv.1 = k then some kv.2 else acc) none

/-! ## RTSP request/response grammar (src/rtsp.rs) -/

/-- Model of `RequestType` (src/rtsp.rs lines 10-15). -/
inductive RequestType where
  | setup
  | play
  | pause
  | teardown
deriving Repr, DecidableEq

/-- The `anyhow` parse failures of src/rtsp.rs, as a closed error type. -/
inductive FormatError where
  | emptyRequest
  | missingMethod
  | missingFilename
  | missingVersion
  | unsupportedMethod
  | missingCSeq
  | badNumber
  | emptyResponse
  | missingStatusCode
  | missingSession
deriving Repr, DecidableEq

/-- Model of `RtspRequest` (src/rtsp.rs lines 30-37). -/
structure RtspRequest where
  request_type : RequestType
  filename : Str
  cseq : Nat
  transport : Option Str
  client_port : Option Nat
  session_id : Option Nat
deriving Repr, DecidableEq

/-- Header collection of `RtspRequest::parse` (src/rtsp.rs lines 63-71):
stop at the first empty line; a line with a colon contributes its
trimmed lowercased key and trimmed value; a line without a colon is
skipped. -/
def reqHeaderList : List Str → List (Str × Str)
  | [] => []
  | line :: rest =>
    if line.isEmpty then []
    else
      match splitOnce ':' line with
      | some (k, v) => (lowerStr (trimStr k), trimStr v) :: reqHeaderList rest
      | none => reqHeaderList rest

/-- Model of `RtspRequest::parse` (src/rtsp.rs lines 41-99). -/
def RtspRequest.parse (data : Str) : Except FormatError RtspRequest :=
  match rustLines data with
  | [] => .error .emptyRequest
  | requestLine :: headerLines =>
    match splitWS requestLine with
    | [] => .error .missingMethod
    | [_] => .error .missingFilename
    | [_, _] => .error .missingVersion
    | methodStr :: filename :: _version :: _ =>
      let rt? : Option RequestType :=
        if methodStr = "SETUP".toList then some .setup
        else if methodStr = "PLAY".toList then some .play
        else if methodStr = "PAUSE".toList then some .pause
        else if methodStr = "TEARDOWN".toList then some .teardown
        else none
      match rt? with
      | none => .error .unsupportedMethod
      | some request_type =>
        let headers := reqHeaderList headerLines
        match getHeader headers "cseq".toList with
        | none => .error .missingCSeq
        | some cseqStr =>
          match parseUInt 32 cseqStr with
          | none => .error .badNumber
          | some cseq =>
            let session? : Except FormatError (Option Nat) :=
              match getHeader headers "session".toList with
              | none => .ok none
              | some s =>
                match parseUInt 32 s with
                | none => .error .badNumber
                | some n => .ok (some n)
            match session? with
            | .error e => .error e
            | .ok session_id =>
              let tp? : Except FormatError (Option Str × Option Nat) :=
                match getHeader headers "transport".toList with
                | none => .ok (none, none)
                | some tstr =>
                  match (splitSep ';' tstr).findSome?
                      (fun part => dropPre "client_port=".toList (trimStr part)) with
                  | none => .ok (some tstr, none)
                  | some pstr =>
                    match parseUInt 16 (trimStr pstr) with
                    | none => .error .badNumber
                    | some p => .ok (some tstr, some p)
              match tp? with
              | .error e => .error e
              | .ok (transport, client_port) =>
                .ok
                  { request_type := request_type
                    filename := filename
                    cseq := cseq
                    transport := transport
                    client_port := client_port
                    session_id := session_id }

/-- Model of `RtspResponse` (src/rtsp.rs lines 104-108). -/
structure RtspResponse where
  status_code : Nat
  cseq : Nat
  session_id : Nat
deriving Repr, DecidableEq

/-- Header collection of `RtspResponse::parse` (src/rtsp.rs lines
122-127): every line is examined (no blank-line stop); a line without a
colon is skipped. -/
def respHeaderList : List Str → List (Str × Str)
  | [] => []
  | line :: rest =>
    match splitOnce ':' line with
    | some (k, v) => (lowerStr (trimStr k), trimStr v) :: respHeaderList rest
    | none => respHeaderList rest

/-- Model of `RtspResponse::parse` (src/rtsp.rs lines 112-144).  The
first status-line token (the version) is read without any check; the
second token is the status code. -/
def RtspResponse.parse (data : Str) : Except FormatError RtspResponse :=
  match rustLines data with
  | [] => .error .emptyResponse
  | statusLine :: headerLines =>
    match splitWS statusLine with
    | [] => .error .missingStatusCode
    | [_] => .error .missingStatusCode
    | _version :: statusCodeStr :: _ =>
      match parseUInt 16 statusCodeStr with
      | none => .error .badNumber
      | some status_code =>
        let headers := respHeaderList headerLines
        match getHeader headers "cseq".toList with
        | none => .error .missingCSeq
        | some cseqStr =>
          match parseUInt 32 cseqStr with
          | none => .error .badNumber
          | some cseq =>
            match getHeader headers "session".toList with
            | none => .error .missingSession
            | some sessStr =>
              match parseUInt 32 sessStr with
              | none => .error .badNumber
              | some session_id =>
                .ok { status_code := status_code, cseq := cseq, session_id := session_id }

/-! ## Client request formatting (src/client_logic.rs) -/

/-- Model of the `ToAsync` command variants (src/client_logic.rs lines
38-43). -/
inductive ToAsync where
  | setup
  | play
  | pause
  | teardown
deriving Repr, DecidableEq

/-- Decimal digits of `n`, most significant first, with a structural
fuel argument (`n + 1` suffices); models `format!` of an unsigned
integer. -/
def natToDigitsFuel : Nat → Nat → Str
  | 0, _ => []
  | fuel + 1, n =>
    if n < 10 then [Char.ofNat (48 + n)]
    else natToDigitsFuel fuel (n / 10) ++ [Char.ofNat (48 + n % 10)]

/-- Decimal rendering of an unsigned integer. -/
def natToDigits (n : Nat) : Str := natToDigitsFuel (n + 1) n

/-- The `RTSP_VERSION` constant of src/rtsp.rs. -/
def RTSP_VERSION_STR : Str := "RTSP/1.0".toList

/-- Model of the request text built by `handle_command`
(src/client_logic.rs lines 240-268), one `format!` literal per
command. -/
def formatRequest (cmd : ToAsync) (videoFile : Str) (cseq sessionId rtpPort : Nat) : Str :=
  match cmd with
  | .setup =>
      "SETUP ".toList ++ videoFile ++ " ".toList ++ RTSP_VERSION_STR
        ++ "\r\nCSeq: ".toList ++ natToDigits cseq
        ++ "\r\nTransport: RTP/UDP; client_port=".toList ++ natToDigits rtpPort
        ++ "\r\n\r\n".toList
  | .play =>
      "PLAY ".toList ++ videoFile ++ " ".toList ++ RTSP_VERSION_STR
        ++ "\r\nCSeq: ".toList ++ natToDigits cseq
        ++ "\r\nSession: ".toList ++ natToDigits sessionId
        ++ "\r\n\r\n".toList
  | .pause =>
      "PAUSE ".toList ++ videoFile ++ " ".toList ++ RTSP_VERSION_STR
        ++ "\r\nCSeq: ".toList ++ natToDigits cseq
        ++ "\r\nSession: ".toList ++ natToDigits sessionId
        ++ "\r\n\r\n".toList
  | .teardown =>
      "TEARDOWN ".toList ++ videoFile ++ " ".toList ++ RTSP_VERSION_STR
        ++ "\r\nCSeq: ".toList ++ natToDigits cseq
        ++ "\r\nSession: ".toList ++ natToDigits sessionId
        ++ "\r\n\r\n".toList

/-! ## Server worker (src/server_logic.rs)

The worker is embedded as explicit state passing.  Concurrency is
determinised as follows: the `tokio::select!` of `handle_connection`
checks the stored shutdown permit before each read; the spawned
`send_rtp` task is tracked by `media_active`; `Notify::notify_one`
wakes the live media task when one exists and otherwise stores one
permit for the connection loop.  The watchdog task of `handle_play`
(lines 162-171) awaits the media task and re-notifies the shutdown
`Notify` when that task ends; since it runs on its own schedule, its
completion is an asynchronous occurrence and appears in the event
trace as `ConnEvent.mediaEnded`, whose position in the trace is the
nondeterministic timing of the re-notification relative to the reads.
The random session id draw `gen_range(lo..=hi)` is parameterised by a
seed. -/

/-- Model of the `State` enum (src/server_logic.rs lines 23-27). -/
inductive State where
  | init
  | ready
  | playing
deriving Repr, DecidableEq

/-- Model of `VideoStream` at the interface boundary: the opened file.
Frame contents play no role in the control logic. -/
structure VideoStream where
  filename : Str
deriving Repr, DecidableEq

/-- Environment: which file names `VideoStream::new` can open. -/
structure Env where
  files : Str → Bool

/-- Model of `rand::thread_rng().gen_range(lo..=hi)`: a draw determined
by a seed, always within the inclusive range. -/
def genRange (lo hi seed : Nat) : Nat := lo + seed % (hi - lo + 1)

/-- Model of `ServerWorker` (src/server_logic.rs lines 30-39).
`media_active` tracks the spawned `send_rtp` task; `shutdown_pending`
is a stored `Notify` permit observable by the connection loop. -/
structure ServerWorker where
  state : State
  session_id : Nat
  video_stream : Option VideoStream
  rtp_socket : Option Unit
  rtp_dest_port : Option Nat
  media_active : Bool
  shutdown_pending : Bool
deriving Repr, DecidableEq

/-- Model of `ServerWorker::new` (src/server_logic.rs lines 43-54). -/
def ServerWorker.new : ServerWorker :=
  { state := .init
    session_id := 0
    video_stream := none
    rtp_socket := none
    rtp_dest_port := none
    media_active := false
    shutdown_pending := false }

/-- Model of `rtp_shutdown_notify.notify_one()`: the live media task
consumes the wakeup if one exists, otherwise the permit is stored for
the connection loop. -/
def ServerWorker.notifyOne (w : ServerWorker) : ServerWorker :=
  if w.media_active then { w with media_active := false }
  else { w with shutdown_pending := true }

/-- One reply written by `reply_rtsp` (src/server_logic.rs lines
205-213): status code, status text, the `CSeq` value passed by the
caller, and the worker's `session_id` at the time of sending. -/
structure SentResp where
  code : Nat
  status : Str
  cseq : Nat
  session : Nat
deriving Repr, DecidableEq

/-- Outcome of `process_request`: normal return, an `anyhow` error
(`bail!`), or a panic (a failing `Option::unwrap`). -/
inductive HRes where
  | ok
  | err
  | panicked
deriving Repr, DecidableEq

/-- Result of one request handler: the worker afterwards, the replies
written, and how the handler returned. -/
structure StepOut where
  worker : ServerWorker
  sent : List SentResp
  res : HRes
deriving Repr, DecidableEq

/-- Model of `handle_setup` (src/server_logic.rs lines 108-135): only
from `Init`; opening the file either succeeds (fresh session id, state
`Ready`, destination port taken from the request, reply 200) or replies
404 leaving the worker unchanged. -/
def handleSetup (env : Env) (seed : Nat) (w : ServerWorker) (req : RtspRequest) : StepOut :=
  if w.state ≠ .init then ⟨w, [], .err⟩
  else if env.files req.filename then
    let sid := genRange 100000 999999 seed
    let w' := { w with
      state := .ready
      video_stream := some ⟨req.filename⟩
      session_id := sid
      rtp_dest_port := req.client_port }
    ⟨w', [⟨200, "OK".toList, req.cseq, sid⟩], .ok⟩
  else ⟨w, [⟨404, "File Not Found".toList, req.cseq, w.session_id⟩], .ok⟩

/-- Model of `handle_play` (src/server_logic.rs lines 138-174): only
from `Ready` with a matching session id; binds the media socket, moves
to `Playing`, replies 200, and then spawns the media task — where
`video_stream.take().unwrap()` and `rtp_dest_port.unwrap()` panic when
the respective field is `None`.  The function also spawns a watchdog
task (lines 162-171) awaiting the media task; that watchdog's later
re-notification of the shutdown `Notify` is delivered to the
connection loop as the `ConnEvent.mediaEnded` event. -/
def handlePlay (w : ServerWorker) (req : RtspRequest) : StepOut :=
  if w.state ≠ .ready then ⟨w, [], .err⟩
  else if req.session_id ≠ some w.session_id then ⟨w, [], .err⟩
  else
    let w1 := { w with rtp_socket := some (), state := .playing }
    let sent := [⟨200, "OK".toList, req.cseq, w1.session_id⟩]
    match w1.video_stream with
    | none => ⟨{ w1 with video_stream := none }, sent, .panicked⟩
    | some _ =>
      match w1.rtp_dest_port with
      | none => ⟨{ w1 with video_stream := none }, sent, .panicked⟩
      | some _ => ⟨{ w1 with video_stream := none, media_active := true }, sent, .ok⟩

/-- Model of `handle_pause` (src/server_logic.rs lines 177-190): only
from `Playing` with a matching session id; back to `Ready`, signal the
media task, reply 200. -/
def handlePause (w : ServerWorker) (req : RtspRequest) : StepOut :=
  if w.state ≠ .playing then ⟨w, [], .err⟩
  else if req.session_id ≠ some w.session_id then ⟨w, [], .err⟩
  else
    let w1 := ServerWorker.notifyOne { w with state := .ready }
    ⟨w1, [⟨200, "OK".toList, req.cseq, w1.session_id⟩], .ok⟩

/-- Model of `handle_teardown` (src/server_logic.rs lines 193-202): the
only check is the session id; signal shutdown and reply 200.  The
state field is not changed. -/
def handleTeardown (w : ServerWorker) (req : RtspRequest) : StepOut :=
  if req.session_id ≠ some w.session_id then ⟨w, [], .err⟩
  else
    let w1 := ServerWorker.notifyOne w
    ⟨w1, [⟨200, "OK".toList, req.cseq, w1.session_id⟩], .ok⟩

/-- Model of `process_request` (src/server_logic.rs lines 98-105). -/
def processRequest (env : Env) (seed : Nat) (w : ServerWorker) (req : RtspRequest) : StepOut :=
  match req.request_type with
  | .setup => handleSetup env seed w req
  | .play => handlePlay w req
  | .pause => handlePause w req
  | .teardown => handleTeardown w req

/-- One observable event at the connection loop: the peer closed (a
zero-length read), one complete request arrived, or the spawned
`send_rtp` task has ended (by cancellation, end of stream or send
failure) and its watchdog (src/server_logic.rs lines 162-171) runs,
re-notifying the shutdown `Notify`. -/
inductive ConnEvent where
  | closed
  | bytes (data : Str)
  | mediaEnded

/-- Why `handle_connection` stopped consuming events. -/
inductive TermReason where
  | outOfEvents
  | peerClosed
  | notified
  | panicked
deriving Repr, DecidableEq

/-- Model of the `handle_connection` loop (src/server_logic.rs lines
58-95) over a list of events.  Before each read the select is given a
chance to observe a stored shutdown permit; a zero-length read returns
cleanly; a parse failure is answered with 400 and CSeq 0 and the loop
continues; a `process_request` error is answered with 500
"Connection error" and CSeq 0 and the loop continues; the watchdog
re-notification of an ended media task (`ConnEvent.mediaEnded`)
delivers one more `notify_one`, whose permit the loop observes on its
next iteration. -/
def runConn (env : Env) : List Nat → ServerWorker → List ConnEvent →
    ServerWorker × List SentResp × TermReason
  | _, w, [] => (w, [], .outOfEvents)
  | seeds, w, ev :: evs =>
    if w.shutdown_pending then (w, [], .notified)
    else
      match ev with
      | .closed => (w, [], .peerClosed)
      | .mediaEnded => runConn env seeds (ServerWorker.notifyOne w) evs
      | .bytes data =>
        match RtspRequest.parse data with
        | .error _ =>
          let r := runConn env seeds w evs
          (r.1, ⟨400, "Bad Request".toList, 0, w.session_id⟩ :: r.2.1, r.2.2)
        | .ok req =>
          let out := processRequest env (seeds.headD 0) w req
          match out.res with
          | .panicked => (out.worker, out.sent, .panicked)
          | .ok =>
            let r := runConn env seeds.tail out.worker evs
            (r.1, out.sent ++ r.2.1, r.2.2)
          | .err =>
            let r := runConn env seeds.tail out.worker evs
            (r.1, out.sent ++ ⟨500, "Connection error".toList, 0, out.worker.session_id⟩ :: r.2.1, r.2.2)

/-! ## Concrete environments and traces used by witnesses and
counterexamples -/

/-- An environment in which exactly the file "movie" exists. -/
def envMovie : Env := ⟨fun s => s = "movie".toList⟩

/-- An environment with no files. -/
def envEmpty : Env := ⟨fun _ => false⟩

/-- A NEGOTIATE (SETUP) request text carrying no Transport header, so no
client port. -/
def setupNoPortStr : Str := "SETUP movie RTSP/1.0\r\nCSeq: 1\r\n\r\n".toList

/-- A NEGOTIATE (SETUP) request text with client port 6000. -/
def setupPortStr : Str :=
  "SETUP movie RTSP/1.0\r\nCSeq: 1\r\nTransport: RTP/UDP; client_port=6000\r\n\r\n".toList

/-- A START (PLAY) request for session 100000 (the id drawn at seed 0). -/
def playStr : Str := "PLAY movie RTSP/1.0\r\nCSeq: 2\r\nSession: 100000\r\n\r\n".toList

/-- A PAUSE request for session 100000. -/
def pauseStr : Str := "PAUSE movie RTSP/1.0\r\nCSeq: 3\r\nSession: 100000\r\n\r\n".toList

/-- A second START (PLAY) after the PAUSE, same session. -/
def playAgainStr : Str := "PLAY movie RTSP/1.0\r\nCSeq: 4\r\nSession: 100000\r\n\r\n".toList

/-- A STOP (TEARDOWN) request carrying session id 0. -/
def teardown0Str : Str := "TEARDOWN movie RTSP/1.0\r\nCSeq: 1\r\nSession: 0\r\n\r\n".toList

/-- A STOP (TEARDOWN) request for session 100000, sequence 5. -/
def teardownSessStr : Str :=
  "TEARDOWN movie RTSP/1.0\r\nCSeq: 5\r\nSession: 100000\r\n\r\n".toList

/-- A START (PLAY) request with sequence number 7 and a wrong session id. -/
def playWrongSessionStr : Str := "PLAY movie RTSP/1.0\r\nCSeq: 7\r\nSession: 3\r\n\r\n".toList

/-- A request text whose Sequence (CSeq) header is missing. -/
def noSeqStr : Str := "SETUP movie RTSP/1.0\r\nTransport: RTP/UDP; client_port=6000\r\n\r\n".toList

/-- The validation condition under which the handler for a request
replies 200: the state precondition and session-id check of the
corresponding `handle_*` function. -/
def reqSucceeds (env : Env) (w : ServerWorker) (req : RtspRequest) : Prop :=
  match req.request_type with
  | .setup => w.state = .init ∧ env.files req.filename = true
  | .play => w.state = .ready ∧ req.session_id = some w.session_id
  | .pause => w.state = .playing ∧ req.session_id = some w.session_id
  | .teardown => req.session_id = some w.session_id

/-- The request method produced for each client command by
`handle_command`. -/
def methodOf : ToAsync → RequestType
  | .setup => .setup
  | .play => .play
  | .pause => .pause
  | .teardown => .teardown

/-! Arithmetic bridges for the bit-packed header byte. -/

theorem lor_eq_add_of_eq_mul {a b k m : Nat} (ha : a = 2 ^ k * m) (hb : b < 2 ^ k) :
    a ||| b = a + b := by
  calc a ||| b = 2 ^ k * m ||| b := by rw [ha]
    _ = 2 ^ k * m + b := (Nat.mul_add_lt_is_or hb m).symm
    _ = a + b := by rw [ha]

theorem byte0_eq (pb eb : Bool) (cc : Nat) (h : cc < 16) :
    ((2 <<< 6) % 256 ||| (pb.toNat <<< 5) ||| (eb.toNat <<< 4) ||| cc)
      = 128 + 32 * pb.toNat + 16 * eb.toNat + cc := by
  cases pb <;> cases eb <;>
    [ (rw [show ((2 <<< 6) % 256 ||| ((false : Bool).toNat <<< 5) |||
          ((false : Bool).toNat <<< 4)) = 128 from by decide,
        lor_eq_add_of_eq_mul (k := 4) (m := 8) (by norm_num) h]);
      (rw [show ((2 <<< 6) % 256 ||| ((false : Bool).toNat <<< 5) |||
          ((true : Bool).toNat <<< 4)) = 144 from by decide,
        lor_eq_add_of_eq_mul (k := 4) (m := 9) (by norm_num) h]);
      (rw [show ((2 <<< 6) % 256 ||| ((true : Bool).toNat <<< 5) |||
          ((false : Bool).toNat <<< 4)) = 160 from by decide,
        lor_eq_add_of_eq_mul (k := 4) (m := 10) (by norm_num) h]);
      (rw [show ((2 <<< 6) % 256 ||| ((true : Bool).toNat <<< 5) |||
          ((true : Bool).toNat <<< 4)) = 176 from by decide,
        lor_eq_add_of_eq_mul (k := 4) (m := 11) (by norm_num) h])] <;>
    simp [Bool.toNat]

theorem byte1_eq (mb : Bool) (pt : Nat) (h : pt < 128) :
    ((mb.toNat <<< 7) ||| pt) = 128 * mb.toNat + pt := by
  cases mb
  · simp [Bool.toNat]
  · rw [show ((true : Bool).toNat <<< 7) = 128 from by decide,
      lor_eq_add_of_eq_mul (k := 7) (m := 1) (by norm_num) h]
    simp [Bool.toNat]

theorem and_fifteen (x : Nat) : x &&& 15 = x % 16 := by
  have h := Nat.and_pow_two_sub_one_eq_mod x 4
  norm_num at h
  exact h

theorem and_sevenbits (x : Nat) : x &&& 127 = x % 128 := by
  have h := Nat.and_pow_two_sub_one_eq_mod x 7
  norm_num at h
  exact h

/-- C2: for every packet whose fields lie within their declared bit widths
(version equal to the constant 2, 4-bit cc, 7-bit payload type, 16-bit
sequence number, 32-bit timestamp and ssrc) and any payload bytes,
`decode (encode packet)` succeeds and reproduces every header field and
the payload exactly. -/
theorem rtp_encode_decode_roundtrip (p : RtpPacket)
    (hv : p.version = RTP_VERSION) (hcc : p.cc < 16) (hpt : p.payload_type < 128)
    (hseq : p.sequence_number < 2 ^ 16) (hts : p.timestamp < 2 ^ 32)
    (hssrc : p.ssrc < 2 ^ 32) (hpl : ∀ b ∈ p.payload, b < 256) :
    RtpPacket.decode p.encode = .ok p := by
  obtain ⟨v, pb, eb, cc, mb, pt, seq, ts, ssrc, pl⟩ := p
  simp only [RTP_VERSION] at hv
  simp only at hcc hpt hseq hts hssrc hpl
  subst hv
  have hpb : pb.toNat ≤ 1 := Bool.toNat_le pb
  have heb : eb.toNat ≤ 1 := Bool.toNat_le eb
  have hmb : mb.toNat ≤ 1 := Bool.toNat_le mb
  have e2 : (2 : Nat) ^ 4 = 16 ∧ (2 : Nat) ^ 5 = 32 ∧ (2 : Nat) ^ 6 = 64 ∧
      (2 : Nat) ^ 7 = 128 ∧ (2 : Nat) ^ 8 = 256 ∧ (2 : Nat) ^ 16 = 65536 ∧
      (2 : Nat) ^ 24 = 16777216 ∧ (2 : Nat) ^ 32 = 4294967296 := by norm_num
  obtain ⟨e4, e5, e6, e7, e8, e16, e24, e32⟩ := e2
  rw [e16] at hseq; rw [e32] at hts hssrc
  simp only [RtpPacket.encode, be16, be32]
  rw [byte0_eq pb eb cc hcc, byte1_eq mb pt hpt]
  have h6 : (128 + 32 * pb.toNat + 16 * eb.toNat + cc) >>> 6 = 2 := by
    rw [Nat.shiftRight_eq_div_pow, e6]; omega
  have h5 : (128 + 32 * pb.toNat + 16 * eb.toNat + cc) >>> 5 &&& 1 = pb.toNat := by
    rw [Nat.shiftRight_eq_div_pow, Nat.and_one_is_mod, e5]; omega
  have h4 : (128 + 32 * pb.toNat + 16 * eb.toNat + cc) >>> 4 &&& 1 = eb.toNat := by
    rw [Nat.shiftRight_eq_div_pow, Nat.and_one_is_mod, e4]; omega
  have hc : (128 + 32 * pb.toNat + 16 * eb.toNat + cc) &&& 15 = cc := by
    rw [and_fifteen]; omega
  have h7 : (128 * mb.toNat + pt) >>> 7 &&& 1 = mb.toNat := by
    rw [Nat.shiftRight_eq_div_pow, Nat.and_one_is_mod, e7]; omega
  have hptx : (128 * mb.toNat + pt) &&& 127 = pt := by
    rw [and_sevenbits]; omega
  simp only [List.cons_append, List.nil_append]
  simp only [RtpPacket.decode, h6, h5, h4, hc, h7, hptx, RTP_VERSION, fromBe16, fromBe32,
    ne_eq, not_true_eq_false, if_false, ite_false, reduceIte, Except.ok.injEq,
    RtpPacket.mk.injEq]
  rw [e8, e16, e24]
  refine ⟨trivial, ?_, ?_, trivial, ?_, trivial, by omega, by omega, by omega, trivial⟩
  · cases pb <;> rfl
  · cases eb <;> rfl
  · cases mb <;> rfl

/-- Witness for C2 at a concrete packet. -/
theorem rtp_encode_decode_roundtrip_witness :
    RtpPacket.decode
        (RtpPacket.encode ⟨2, true, false, 3, true, 26, 700, 100000, 5, [9, 255]⟩)
      = .ok ⟨2, true, false, 3, true, 26, 700, 100000, 5, [9, 255]⟩ :=
  rtp_encode_decode_roundtrip ⟨2, true, false, 3, true, 26, 700, 100000, 5, [9, 255]⟩
    (by decide) (by decide) (by decide) (by decide) (by decide) (by decide) (by decide)

/-- C7: for every input byte string, decoding fails with a SizeError iff
fewer than 12 bytes are supplied (never any other outcome there); on
inputs of at least 12 bytes it fails with a VersionError iff the top two
bits of byte 0 differ from the fixed version constant; otherwise it
succeeds, taking the remaining bytes as payload, with no other header
field validated. -/
theorem rtp_decode_error_classification (data : List Nat) (hb : ∀ b ∈ data, b < 256) :
    (RtpPacket.decode data = .error .sizeError ↔ data.length < 12)
    ∧ (12 ≤ data.length →
        (RtpPacket.decode data = .error .versionError ↔ data.headD 0 >>> 6 ≠ RTP_VERSION))
    ∧ (12 ≤ data.length → data.headD 0 >>> 6 = RTP_VERSION →
        ∃ p, RtpPacket.decode data = .ok p ∧ p.payload = data.drop 12
          ∧ p.version = RTP_VERSION) := by
  rcases data with _ | ⟨b0, _ | ⟨b1, _ | ⟨b2, _ | ⟨b3, _ | ⟨b4, _ | ⟨b5, _ | ⟨b6,
    _ | ⟨b7, _ | ⟨b8, _ | ⟨b9, _ | ⟨b10, _ | ⟨b11, rest⟩⟩⟩⟩⟩⟩⟩⟩⟩⟩⟩⟩
  iterate 12
    exact ⟨by simp [RtpPacket.decode], fun h => by simp at h, fun h => by simp at h⟩
  refine ⟨⟨fun h => ?_, fun h => ?_⟩, fun _ => ⟨fun h hv => ?_, fun hne => ?_⟩,
    fun _ hv => ?_⟩
  · by_cases hv : b0 >>> 6 = 2 <;>
      simp [RtpPacket.decode, RTP_VERSION, hv] at h
  · simp at h; omega
  · simp only [List.headD_cons] at hv
    simp [RtpPacket.decode, RTP_VERSION, hv] at h
  · simp only [List.headD_cons] at hne
    simp only [RTP_VERSION] at hne
    simp [RtpPacket.decode, RTP_VERSION, hne]
  · simp only [List.headD_cons, RTP_VERSION] at hv
    have hd : RtpPacket.decode
        (b0 :: b1 :: b2 :: b3 :: b4 :: b5 :: b6 :: b7 :: b8 :: b9 :: b10 :: b11 :: rest)
        = .ok
          { version := b0 >>> 6
            padding := (b0 >>> 5) &&& 1 == 1
            extension := (b0 >>> 4) &&& 1 == 1
            cc := b0 &&& 0x0F
            marker := (b1 >>> 7) &&& 1 == 1
            payload_type := b1 &&& 0x7F
            sequence_number := fromBe16 b2 b3
            timestamp := fromBe32 b4 b5 b6 b7
            ssrc := fromBe32 b8 b9 b10 b11
            payload := rest } := by
      simp [RtpPacket.decode, RTP_VERSION, hv]
    exact ⟨_, hd, rfl, by simpa [RTP_VERSION] using hv⟩

/-- Witness for C7 on a concrete 13-byte input with version bits 10. -/
theorem rtp_decode_error_classification_witness :
    ((∀ b ∈ [128, 26, 0, 7, 0, 0, 3, 232, 0, 0, 0, 5, 9], b < 256)
      ∧ (RtpPacket.decode [128, 26, 0, 7, 0, 0, 3, 232, 0, 0, 0, 5, 9]
            = .error .sizeError ↔ ([128, 26, 0, 7, 0, 0, 3, 232, 0, 0, 0, 5, 9] : List Nat).length < 12)) :=
  ⟨by decide,
    (rtp_decode_error_classification [128, 26, 0, 7, 0, 0, 3, 232, 0, 0, 0, 5, 9]
      (by decide)).1⟩

/-! ## Handler equation lemmas -/

theorem handleSetup_not_init (env : Env) (seed : Nat) (w : ServerWorker) (req : RtspRequest)
    (h : w.state ≠ .init) : handleSetup env seed w req = ⟨w, [], .err⟩ := by
  simp [handleSetup, h]

theorem handleSetup_found (env : Env) (seed : Nat) (w : ServerWorker) (req : RtspRequest)
    (h : w.state = .init) (hf : env.files req.filename = true) :
    handleSetup env seed w req
      = ⟨{ w with
            state := .ready
            video_stream := some ⟨req.filename⟩
            session_id := genRange 100000 999999 seed
            rtp_dest_port := req.client_port },
          [⟨200, "OK".toList, req.cseq, genRange 100000 999999 seed⟩], .ok⟩ := by
  simp [handleSetup, h, hf]

theorem handleSetup_missing (env : Env) (seed : Nat) (w : ServerWorker) (req : RtspRequest)
    (h : w.state = .init) (hf : env.files req.filename = false) :
    handleSetup env seed w req
      = ⟨w, [⟨404, "File Not Found".toList, req.cseq, w.session_id⟩], .ok⟩ := by
  simp [handleSetup, h, hf]

theorem handlePlay_not_ready (w : ServerWorker) (req : RtspRequest)
    (h : w.state ≠ .ready) : handlePlay w req = ⟨w, [], .err⟩ := by
  simp [handlePlay, h]

theorem handlePlay_wrong_session (w : ServerWorker) (req : RtspRequest)
    (h : req.session_id ≠ some w.session_id) : handlePlay w req = ⟨w, [], .err⟩ := by
  by_cases h1 : w.state = .ready <;> simp [handlePlay, h1, h]

theorem handlePlay_accept (w : ServerWorker) (req : RtspRequest)
    (h1 : w.state = .ready) (h2 : req.session_id = some w.session_id) :
    (handlePlay w req).sent = [⟨200, "OK".toList, req.cseq, w.session_id⟩]
    ∧ (handlePlay w req).worker.state = .playing := by
  cases hv : w.video_stream <;> cases hp : w.rtp_dest_port <;>
    simp [handlePlay, h1, h2, hv, hp]

theorem notifyOne_session (w : ServerWorker) :
    (ServerWorker.notifyOne w).session_id = w.session_id := by
  by_cases h : w.media_active <;> simp [ServerWorker.notifyOne, h]

theorem notifyOne_state (w : ServerWorker) :
    (ServerWorker.notifyOne w).state = w.state := by
  by_cases h : w.media_active <;> simp [ServerWorker.notifyOne, h]

theorem notifyOne_of_media_false (w : ServerWorker) (h : w.media_active = false) :
    ServerWorker.notifyOne w = { w with shutdown_pending := true } := by
  simp [ServerWorker.notifyOne, h]

theorem notifyOne_of_media_true (w : ServerWorker) (h : w.media_active = true) :
    ServerWorker.notifyOne w = { w with media_active := false } := by
  simp [ServerWorker.notifyOne, h]

theorem handleTeardown_match (w : ServerWorker) (req : RtspRequest)
    (h : req.session_id = some w.session_id) :
    handleTeardown w req
      = ⟨w.notifyOne, [⟨200, "OK".toList, req.cseq, w.session_id⟩], .ok⟩ := by
  simp [handleTeardown, h, notifyOne_session]

theorem handleTeardown_mismatch (w : ServerWorker) (req : RtspRequest)
    (h : req.session_id ≠ some w.session_id) :
    handleTeardown w req = ⟨w, [], .err⟩ := by
  simp [handleTeardown, h]

/-- C1: contrary to the spec's no-crash guarantee, processing a START
(PLAY) request panics: after a NEGOTIATE that carried no client port,
`rtp_dest_port.unwrap()` panics, and when START follows a PAUSE,
`video_stream.take().unwrap()` panics, in both cases after the 200
reply was already sent. -/
theorem start_request_panics :
    (runConn envMovie [0, 0] ServerWorker.new
        [.bytes setupNoPortStr, .bytes playStr]).2.2 = .panicked
    ∧ (runConn envMovie [0, 0, 0, 0] ServerWorker.new
        [.bytes setupPortStr, .bytes playStr, .bytes pauseStr, .bytes playAgainStr]).2.2
      = .panicked := by
  exact ⟨rfl, rfl⟩

/-- C3 (amended): NEGOTIATE succeeds (emits 200 and reaches `Ready`)
iff the state is `Idle` and the named resource can be opened; START
succeeds (emits 200 and reaches `Streaming`) iff the state is
`Negotiated` and the session id matches; a START with a wrong session
id fails leaving worker, replies and state untouched. -/
theorem negotiate_start_transitions (env : Env) (seed : Nat) (w : ServerWorker)
    (req : RtspRequest) :
    (req.request_type = .setup →
      (((∃ r ∈ (processRequest env seed w req).sent, r.code = 200)
          ∧ (processRequest env seed w req).worker.state = .ready)
        ↔ (w.state = .init ∧ env.files req.filename = true)))
    ∧ (req.request_type = .play →
      (((∃ r ∈ (processRequest env seed w req).sent, r.code = 200)
          ∧ (processRequest env seed w req).worker.state = .playing)
        ↔ (w.state = .ready ∧ req.session_id = some w.session_id)))
    ∧ (req.request_type = .play → req.session_id ≠ some w.session_id →
        processRequest env seed w req = ⟨w, [], .err⟩) := by
  refine ⟨fun hrt => ?_, fun hrt => ?_, fun hrt hs => ?_⟩
  · simp only [processRequest, hrt]
    by_cases h1 : w.state = .init
    · by_cases h2 : env.files req.filename = true
      · rw [handleSetup_found env seed w req h1 h2]
        simp [h1, h2]
      · rw [handleSetup_missing env seed w req h1 (by simpa using h2)]
        simp [h1, h2]
    · rw [handleSetup_not_init env seed w req h1]
      simp [h1]
  · simp only [processRequest, hrt]
    by_cases h1 : w.state = .ready
    · by_cases h2 : req.session_id = some w.session_id
      · obtain ⟨hs, hw⟩ := handlePlay_accept w req h1 h2
        simp [hs, hw, h1, h2]
      · rw [handlePlay_wrong_session w req h2]
        simp [h2]
    · rw [handlePlay_not_ready w req h1]
      simp [h1]
  · simp only [processRequest, hrt]
    exact handlePlay_wrong_session w req hs

/-- Witness for C3 at a concrete worker and START request. -/
theorem negotiate_start_transitions_witness :
    ((∃ r ∈ (processRequest envMovie 0
        ⟨.ready, 100000, some ⟨"movie".toList⟩, none, some 6000, false, false⟩
        ⟨.play, "movie".toList, 2, none, none, some 100000⟩).sent, r.code = 200)
      ∧ (processRequest envMovie 0
        ⟨.ready, 100000, some ⟨"movie".toList⟩, none, some 6000, false, false⟩
        ⟨.play, "movie".toList, 2, none, none, some 100000⟩).worker.state = .playing)
    ↔ ((⟨.ready, 100000, some ⟨"movie".toList⟩, none, some 6000, false, false⟩
          : ServerWorker).state = .ready
        ∧ (some 100000 : Option Nat)
            = some (⟨.ready, 100000, some ⟨"movie".toList⟩, none, some 6000, false,
                false⟩ : ServerWorker).session_id) := by
  have h := (negotiate_start_transitions envMovie 0
    ⟨.ready, 100000, some ⟨"movie".toList⟩, none, some 6000, false, false⟩
    ⟨.play, "movie".toList, 2, none, none, some 100000⟩).2.1
  exact h rfl

/-- C3 counterexample: from `Idle`, a NEGOTIATE naming a missing
resource does not succeed — it replies 404 and leaves the worker in
`Idle` with session id 0 — refuting "succeeds if and only if the
current state is Idle". -/
theorem negotiate_idle_missing_file_fails :
    (processRequest envEmpty 0 ServerWorker.new
        ⟨.setup, "movie".toList, 1, none, none, none⟩).worker = ServerWorker.new
    ∧ (processRequest envEmpty 0 ServerWorker.new
        ⟨.setup, "movie".toList, 1, none, none, none⟩).sent
        = [⟨404, "File Not Found".toList, 1, 0⟩]
    ∧ ServerWorker.new.state = .init := by
  exact ⟨rfl, rfl, rfl⟩

/-- C4 (amended): STOP (TEARDOWN) is accepted exactly when the
request's session identifier equals the worker's current session
identifier — in any state, including `Idle` where that identifier is
0; on acceptance it signals the shutdown notification (cancelling a
live media task, else storing the loop permit) and replies 200, but
leaves the recorded state unchanged; on a mismatch nothing changes and
no reply is written by the handler. -/
theorem teardown_accepts_iff_session_matches (env : Env) (seed : Nat) (w : ServerWorker)
    (req : RtspRequest) (hrt : req.request_type = .teardown) :
    ((processRequest env seed w req).res = .ok ↔ req.session_id = some w.session_id)
    ∧ (req.session_id = some w.session_id →
        processRequest env seed w req
          = ⟨w.notifyOne, [⟨200, "OK".toList, req.cseq, w.session_id⟩], .ok⟩
        ∧ (ServerWorker.notifyOne w).state = w.state)
    ∧ (req.session_id ≠ some w.session_id → processRequest env seed w req = ⟨w, [], .err⟩) := by
  simp only [processRequest, hrt]
  by_cases h : req.session_id = some w.session_id
  · rw [handleTeardown_match w req h]
    exact ⟨by simp [h], fun _ => ⟨rfl, notifyOne_state w⟩, fun hne => absurd h hne⟩
  · rw [handleTeardown_mismatch w req h]
    exact ⟨by simp [h], fun hp => absurd hp h, fun _ => rfl⟩

/-- Witness for C4 at the fresh worker and a STOP carrying session 0. -/
theorem teardown_accepts_iff_session_matches_witness :
    (processRequest envMovie 0 ServerWorker.new
        ⟨.teardown, "movie".toList, 9, none, none, some 0⟩).res = .ok
      ↔ (some 0 : Option Nat) = some ServerWorker.new.session_id :=
  (teardown_accepts_iff_session_matches envMovie 0 ServerWorker.new
    ⟨.teardown, "movie".toList, 9, none, none, some 0⟩ rfl).1

/-- C4 counterexample: STOP is accepted from `Idle` (session id 0
matches), refuting "accepted exactly from the non-Idle states", and a
STOP accepted from `Negotiated` leaves the state at `Negotiated`
rather than returning it to `Idle`. -/
theorem teardown_accepted_from_idle_state_kept :
    ((processRequest envMovie 0 ServerWorker.new
        ⟨.teardown, "movie".toList, 1, none, none, some 0⟩).res = .ok
      ∧ ServerWorker.new.state = .init
      ∧ (processRequest envMovie 0 ServerWorker.new
        ⟨.teardown, "movie".toList, 1, none, none, some 0⟩).worker.state = .init)
    ∧ ((processRequest envMovie 0
        ⟨.ready, 100000, some ⟨"movie".toList⟩, none, some 6000, false, false⟩
        ⟨.teardown, "movie".toList, 5, none, none, some 100000⟩).res = .ok
      ∧ (processRequest envMovie 0
        ⟨.ready, 100000, some ⟨"movie".toList⟩, none, some 6000, false, false⟩
        ⟨.teardown, "movie".toList, 5, none, none, some 100000⟩).worker.state = .ready) := by
  exact ⟨⟨rfl, rfl, rfl⟩, ⟨rfl, rfl⟩⟩

/-- C5 (amended): a zero-length read ends the loop cleanly; a request
that fails to parse is answered with 400 (sequence number 0) and the
loop continues with the connection open; but a successfully processed
STOP replies 200 and then terminates the loop through the shutdown
notification, without any transport close — immediately via the
stored permit when no media task is live, and otherwise as soon as
the cancelled media task's watchdog re-notification arrives. -/
theorem conn_loop_termination (env : Env) (seeds : List Nat) (w : ServerWorker)
    (hw : w.shutdown_pending = false) :
    (∀ evs, runConn env seeds w (.closed :: evs) = (w, [], .peerClosed))
    ∧ (∀ data e evs, RtspRequest.parse data = .error e →
        runConn env seeds w (.bytes data :: evs)
          = ((runConn env seeds w evs).1,
              ⟨400, "Bad Request".toList, 0, w.session_id⟩ :: (runConn env seeds w evs).2.1,
              (runConn env seeds w evs).2.2))
    ∧ (∀ data req ev evs, RtspRequest.parse data = .ok req →
        req.request_type = .teardown → req.session_id = some w.session_id →
        w.media_active = false →
        runConn env seeds w (.bytes data :: ev :: evs)
          = ({ w with shutdown_pending := true },
              [⟨200, "OK".toList, req.cseq, w.session_id⟩], .notified))
    ∧ (∀ data req ev evs, RtspRequest.parse data = .ok req →
        req.request_type = .teardown → req.session_id = some w.session_id →
        w.media_active = true →
        runConn env seeds w (.bytes data :: .mediaEnded :: ev :: evs)
          = ({ w with media_active := false, shutdown_pending := true },
              [⟨200, "OK".toList, req.cseq, w.session_id⟩], .notified)) := by
  refine ⟨fun evs => ?_, fun data e evs hp => ?_,
    fun data req ev evs hp hrt hsess hmedia => ?_,
    fun data req ev evs hp hrt hsess hmedia => ?_⟩
  · simp [runConn, hw]
  · simp [runConn, hw, hp]
  · have hn : ServerWorker.notifyOne w = { w with shutdown_pending := true } := by
      simp [ServerWorker.notifyOne, hmedia]
    have hout : processRequest env (seeds.headD 0) w req
        = ⟨{ w with shutdown_pending := true },
            [⟨200, "OK".toList, req.cseq, w.session_id⟩], .ok⟩ := by
      simp only [processRequest, hrt]
      rw [handleTeardown_match w req hsess, hn]
    simp only [runConn, hw, Bool.false_eq_true, if_false, hp, hout]
    simp [runConn]
  · have hout : processRequest env (seeds.headD 0) w req
        = ⟨ServerWorker.notifyOne w,
            [⟨200, "OK".toList, req.cseq, w.session_id⟩], .ok⟩ := by
      simp only [processRequest, hrt]
      exact handleTeardown_match w req hsess
    have hm1 : (ServerWorker.notifyOne w).media_active = false := by
      rw [notifyOne_of_media_true w hmedia]
    have hsp1 : (ServerWorker.notifyOne w).shutdown_pending = false := by
      rw [notifyOne_of_media_true w hmedia]
      exact hw
    have hsp2 : (ServerWorker.notifyOne (ServerWorker.notifyOne w)).shutdown_pending
        = true := by
      rw [notifyOne_of_media_false _ hm1]
    have e2 : runConn env seeds.tail (ServerWorker.notifyOne w) (.mediaEnded :: ev :: evs)
        = runConn env seeds.tail
            (ServerWorker.notifyOne (ServerWorker.notifyOne w)) (ev :: evs) := by
      simp only [runConn, hsp1, Bool.false_eq_true, if_false]
    have e3 : runConn env seeds.tail
        (ServerWorker.notifyOne (ServerWorker.notifyOne w)) (ev :: evs)
        = (ServerWorker.notifyOne (ServerWorker.notifyOne w), [], .notified) := by
      simp only [runConn, hsp2, if_true]
    have e4 : ServerWorker.notifyOne (ServerWorker.notifyOne w)
        = { w with media_active := false, shutdown_pending := true } := by
      rw [notifyOne_of_media_true w hmedia, notifyOne_of_media_false _ (by simp)]
    simp only [runConn, hw, Bool.false_eq_true, if_false, hp, hout, e2, e3, e4]
    simp [hsp1]

/-- Witness for C5: the fresh worker answers a request missing the
Sequence header with 400 and stays open; processing a STOP for
session 0 ends the loop through the shutdown permit before a later
event; and a STOP addressed to a streaming worker ends the loop once
the cancelled media task's watchdog re-notification arrives. -/
theorem conn_loop_termination_witness :
    runConn envMovie [] ServerWorker.new [.bytes teardown0Str, .closed]
      = ({ ServerWorker.new with shutdown_pending := true },
          [⟨200, "OK".toList, 1, ServerWorker.new.session_id⟩], .notified)
    ∧ runConn envMovie [] ServerWorker.new [.bytes noSeqStr]
      = ((runConn envMovie [] ServerWorker.new []).1,
          ⟨400, "Bad Request".toList, 0, ServerWorker.new.session_id⟩
            :: (runConn envMovie [] ServerWorker.new []).2.1,
          (runConn envMovie [] ServerWorker.new []).2.2)
    ∧ runConn envMovie []
        ⟨.playing, 100000, none, some (), some 6000, true, false⟩
        [.bytes teardownSessStr, .mediaEnded, .closed]
      = ({ (⟨.playing, 100000, none, some (), some 6000, true, false⟩ : ServerWorker) with
            media_active := false, shutdown_pending := true },
          [⟨200, "OK".toList, 5,
            (⟨.playing, 100000, none, some (), some 6000, true, false⟩ : ServerWorker).session_id⟩],
          .notified) :=
  ⟨(conn_loop_termination envMovie [] ServerWorker.new rfl).2.2.1 teardown0Str
      ⟨.teardown, "movie".toList, 1, none, none, some 0⟩ .closed [] rfl rfl rfl rfl,
    (conn_loop_termination envMovie [] ServerWorker.new rfl).2.1 noSeqStr
      .missingCSeq [] rfl,
    (conn_loop_termination envMovie []
        ⟨.playing, 100000, none, some (), some 6000, true, false⟩ rfl).2.2.2 teardownSessStr
      ⟨.teardown, "movie".toList, 5, none, none, some 100000⟩ .closed [] rfl rfl rfl rfl⟩

/-- C5 counterexample: after a successfully processed STOP the loop
terminates via the shutdown notification although the transport was
never closed — the following request is never consumed — refuting
"terminates only when the underlying transport is closed". -/
theorem stop_terminates_loop_without_transport_close :
    (runConn envMovie [0] ServerWorker.new
        [.bytes teardown0Str, .bytes setupPortStr]).2.2 = .notified
    ∧ (runConn envMovie [0] ServerWorker.new
        [.bytes teardown0Str, .bytes setupPortStr]).2.1
      = [⟨200, "OK".toList, 1, 0⟩] := by
  exact ⟨rfl, rfl⟩

theorem processRequest_sent_strong (env : Env) (seed : Nat) (w : ServerWorker)
    (req : RtspRequest) :
    ∀ r ∈ (processRequest env seed w req).sent,
      r.cseq = req.cseq ∧ (r.code = 200 ∨ r.code = 404)
        ∧ (r.code = 200 → reqSucceeds env w req) := by
  obtain ⟨rt, fn, cs, tp, cp, sid⟩ := req
  cases rt
  case setup =>
    by_cases h1 : w.state = .init
    · by_cases h2 : env.files fn = true
      · simp only [processRequest]
        rw [handleSetup_found env seed w _ h1 h2]
        simp [reqSucceeds, h1, h2]
      · simp only [processRequest]
        rw [handleSetup_missing env seed w _ h1 (by simpa using h2)]
        simp [reqSucceeds, h1, h2]
    · simp only [processRequest]
      rw [handleSetup_not_init env seed w _ h1]
      simp
  case play =>
    by_cases h1 : w.state = .ready
    · by_cases h2 : (sid : Option Nat) = some w.session_id
      · simp only [processRequest]
        have hacc := handlePlay_accept w ⟨.play, fn, cs, tp, cp, sid⟩ h1 h2
        rw [hacc.1]
        simp only [reqSucceeds]
        simp_all
      · simp only [processRequest]
        rw [handlePlay_wrong_session w _ (by simpa using h2)]
        simp
    · simp only [processRequest]
      rw [handlePlay_not_ready w _ h1]
      simp
  case pause =>
    by_cases h1 : w.state = .playing
    · by_cases h2 : (sid : Option Nat) = some w.session_id
      · simp only [processRequest, handlePause, h1, h2]
        simp [reqSucceeds, h1, notifyOne_session, h2]
      · simp only [processRequest, handlePause]
        simp [h1, h2]
    · simp only [processRequest, handlePause]
      simp [h1]
  case teardown =>
    by_cases h2 : (sid : Option Nat) = some w.session_id
    · simp only [processRequest]
      rw [handleTeardown_match w _ h2]
      simp [reqSucceeds, h2]
    · simp only [processRequest]
      rw [handleTeardown_mismatch w _ (by simpa using h2)]
      simp

theorem runConn_error_cseq_zero (env : Env) :
    ∀ evs seeds (w : ServerWorker) r, r ∈ (runConn env seeds w evs).2.1 →
      (r.code = 400 ∨ r.code = 500) → r.cseq = 0 := by
  intro evs
  induction evs with
  | nil => intro seeds w r hr _; simp [runConn] at hr
  | cons ev evs ih =>
    intro seeds w r hr hcode
    by_cases hsd : w.shutdown_pending = true
    · simp [runConn, hsd] at hr
    · cases ev with
      | closed => simp [runConn, hsd] at hr
      | mediaEnded =>
        simp only [runConn, hsd, Bool.false_eq_true, if_false] at hr
        exact ih seeds (ServerWorker.notifyOne w) r hr hcode
      | bytes data =>
        cases hp : RtspRequest.parse data with
        | error e =>
          simp only [runConn, hsd, Bool.false_eq_true, if_false, hp] at hr
          rcases List.mem_cons.mp hr with h400 | hrec
          · rw [h400]
          · exact ih seeds w r hrec hcode
        | ok req =>
          have hstrong := processRequest_sent_strong env (seeds.headD 0) w req
          cases hres : (processRequest env (seeds.headD 0) w req).res with
          | panicked =>
            simp only [runConn, hsd, Bool.false_eq_true, if_false, hp, hres] at hr
            have := (hstrong r hr).2.1
            rcases hcode with h | h <;> omega
          | ok =>
            simp only [runConn, hsd, Bool.false_eq_true, if_false, hp, hres] at hr
            rcases List.mem_append.mp hr with hsent | hrec
            · have := (hstrong r hsent).2.1
              rcases hcode with h | h <;> omega
            · exact ih seeds.tail _ r hrec hcode
          | err =>
            simp only [runConn, hsd, Bool.false_eq_true, if_false, hp, hres] at hr
            rcases List.mem_append.mp hr with hsent | hrest
            · have := (hstrong r hsent).2.1
              rcases hcode with h | h <;> omega
            · rcases List.mem_cons.mp hrest with h500 | hrec
              · rw [h500]
              · exact ih seeds.tail _ r hrec hcode

/-- C6 (amended): every reply written by a request handler carries the
sequence number of the request it answers and a 200 reply implies the
operation's validation succeeded, but the 400 and 500 error replies of
the connection loop always carry sequence number 0, not the request's
sequence number. -/
theorem response_sequence_and_success (env : Env) (seed : Nat) (w : ServerWorker)
    (req : RtspRequest) :
    (∀ r ∈ (processRequest env seed w req).sent, r.cseq = req.cseq)
    ∧ (∀ r ∈ (processRequest env seed w req).sent, r.code = 200 → reqSucceeds env w req)
    ∧ (∀ seeds evs r, r ∈ (runConn env seeds w evs).2.1 →
        (r.code = 400 ∨ r.code = 500) → r.cseq = 0) :=
  ⟨fun r hr => (processRequest_sent_strong env seed w req r hr).1,
    fun r hr => (processRequest_sent_strong env seed w req r hr).2.2,
    fun seeds evs r hr => runConn_error_cseq_zero env evs seeds w r hr⟩

/-- Witness for C6: the 200 reply to a concrete NEGOTIATE carries its
sequence number 1. -/
theorem response_sequence_and_success_witness :
    (⟨200, "OK".toList, 1, 100000⟩ : SentResp).cseq
      = (⟨.setup, "movie".toList, 1, none, none, none⟩ : RtspRequest).cseq :=
  (response_sequence_and_success envMovie 0 ServerWorker.new
    ⟨.setup, "movie".toList, 1, none, none, none⟩).1
    ⟨200, "OK".toList, 1, 100000⟩ (by decide)

/-- C6 counterexample: a structurally valid START in the wrong state
with sequence number 7 is answered by the 500 reply carrying sequence
number 0, refuting "every response carries the sequence number of the
request it answers". -/
theorem error_response_drops_sequence_number :
    RtspRequest.parse playWrongSessionStr
      = .ok ⟨.play, "movie".toList, 7, none, none, some 3⟩
    ∧ (runConn envMovie [0] ServerWorker.new [.bytes playWrongSessionStr]).2.1
      = [⟨500, "Connection error".toList, 0, 0⟩] := by
  exact ⟨rfl, rfl⟩

/-- The range of the session-id draw of `handle_setup`. -/
theorem genRange_bounds (seed : Nat) :
    100000 ≤ genRange 100000 999999 seed ∧ genRange 100000 999999 seed ≤ 999999 := by
  have h : seed % 900000 < 900000 := Nat.mod_lt _ (by norm_num)
  simp only [genRange]
  omega

theorem processRequest_session_id (env : Env) (seed : Nat) (w : ServerWorker)
    (req : RtspRequest) :
    (processRequest env seed w req).worker.session_id = w.session_id
    ∨ (req.request_type = .setup ∧ w.state = .init ∧ env.files req.filename = true
        ∧ (processRequest env seed w req).worker.session_id
            = genRange 100000 999999 seed) := by
  obtain ⟨rt, fn, cs, tp, cp, sid⟩ := req
  cases rt
  case setup =>
    by_cases h1 : w.state = .init
    · by_cases h2 : env.files fn = true
      · simp only [processRequest]
        rw [handleSetup_found env seed w _ h1 h2]
        refine Or.inr ⟨?_, h1, h2, ?_⟩ <;> trivial
      · simp only [processRequest]
        rw [handleSetup_missing env seed w _ h1 (by simpa using h2)]
        exact Or.inl rfl
    · simp only [processRequest]
      rw [handleSetup_not_init env seed w _ h1]
      exact Or.inl rfl
  case play =>
    left
    by_cases h1 : w.state = .ready
    · by_cases h2 : (sid : Option Nat) = some w.session_id
      · cases hv : w.video_stream <;> cases hport : w.rtp_dest_port <;>
          simp [processRequest, handlePlay, h1, h2, hv, hport]
      · simp only [processRequest]
        rw [handlePlay_wrong_session w ⟨.play, fn, cs, tp, cp, sid⟩ (by simpa using h2)]
    · simp only [processRequest]
      rw [handlePlay_not_ready w ⟨.play, fn, cs, tp, cp, sid⟩ h1]
  case pause =>
    left
    by_cases h1 : w.state = .playing
    · by_cases h2 : (sid : Option Nat) = some w.session_id
      · simp only [processRequest, handlePause, h1, h2]
        simp only [ne_eq, h1, not_true_eq_false, if_false, ite_false,
          ServerWorker.notifyOne]
        split <;> rfl
      · simp [processRequest, handlePause, h1, h2]
    · simp [processRequest, handlePause, h1]
  case teardown =>
    left
    by_cases h2 : (sid : Option Nat) = some w.session_id
    · simp only [processRequest]
      rw [handleTeardown_match w _ h2]
      exact notifyOne_session w
    · simp only [processRequest]
      rw [handleTeardown_mismatch w _ (by simpa using h2)]

theorem runConn_session_invariant (env : Env) :
    ∀ evs seeds (w : ServerWorker),
      (w.session_id = 0 ∨ (100000 ≤ w.session_id ∧ w.session_id ≤ 999999)) →
      ((runConn env seeds w evs).1.session_id = 0
        ∨ (100000 ≤ (runConn env seeds w evs).1.session_id
            ∧ (runConn env seeds w evs).1.session_id ≤ 999999)) := by
  intro evs
  induction evs with
  | nil => intro seeds w hw; simpa [runConn] using hw
  | cons ev evs ih =>
    intro seeds w hw
    by_cases hsd : w.shutdown_pending = true
    · simpa [runConn, hsd] using hw
    · cases ev with
      | closed => simpa [runConn, hsd] using hw
      | mediaEnded =>
        simp only [runConn, hsd, Bool.false_eq_true, if_false]
        exact ih seeds (ServerWorker.notifyOne w) (by rwa [notifyOne_session])
      | bytes data =>
        cases hp : RtspRequest.parse data with
        | error e =>
          simp only [runConn, hsd, Bool.false_eq_true, if_false, hp]
          exact ih seeds w hw
        | ok req =>
          have hstep : (processRequest env (seeds.headD 0) w req).worker.session_id = 0
              ∨ (100000 ≤ (processRequest env (seeds.headD 0) w req).worker.session_id
                  ∧ (processRequest env (seeds.headD 0) w req).worker.session_id ≤ 999999) := by
            rcases processRequest_session_id env (seeds.headD 0) w req with h | h
            · rw [h]; exact hw
            · rw [h.2.2.2]; exact Or.inr (genRange_bounds (seeds.headD 0))
          cases hres : (processRequest env (seeds.headD 0) w req).res with
          | panicked =>
            simp only [runConn, hsd, Bool.false_eq_true, if_false, hp, hres]
            exact hstep
          | ok =>
            simp only [runConn, hsd, Bool.false_eq_true, if_false, hp, hres]
            exact ih seeds.tail _ hstep
          | err =>
            simp only [runConn, hsd, Bool.false_eq_true, if_false, hp, hres]
            exact ih seeds.tail _ hstep

/-- C9: the worker starts with session identifier 0; a successful
NEGOTIATE assigns an identifier in the inclusive range 100000..999999;
no other request changes the identifier; hence along any run from the
fresh worker the identifier is 0 or in that range. -/
theorem session_id_allocation (env : Env) (seed : Nat) (w : ServerWorker)
    (req : RtspRequest) :
    ServerWorker.new.session_id = 0
    ∧ (req.request_type = .setup → w.state = .init → env.files req.filename = true →
        100000 ≤ (processRequest env seed w req).worker.session_id
        ∧ (processRequest env seed w req).worker.session_id ≤ 999999)
    ∧ (¬ (req.request_type = .setup ∧ w.state = .init ∧ env.files req.filename = true) →
        (processRequest env seed w req).worker.session_id = w.session_id)
    ∧ (∀ seeds evs, (runConn env seeds ServerWorker.new evs).1.session_id = 0
        ∨ (100000 ≤ (runConn env seeds ServerWorker.new evs).1.session_id
            ∧ (runConn env seeds ServerWorker.new evs).1.session_id ≤ 999999)) := by
  refine ⟨rfl, fun hrt h1 h2 => ?_, fun hno => ?_, fun seeds evs =>
    runConn_session_invariant env evs seeds ServerWorker.new (Or.inl rfl)⟩
  · simp only [processRequest, hrt]
    rw [handleSetup_found env seed w req h1 h2]
    exact genRange_bounds seed
  · obtain ⟨rt, fn, cs, tp, cp, sid⟩ := req
    cases rt
    case setup =>
      by_cases h1 : w.state = .init
      · by_cases h2 : env.files fn = true
        · exact absurd ⟨rfl, h1, h2⟩ hno
        · simp only [processRequest]
          rw [handleSetup_missing env seed w _ h1 (by simpa using h2)]
      · simp only [processRequest]
        rw [handleSetup_not_init env seed w _ h1]
    all_goals {
      rcases processRequest_session_id env seed w ⟨_, fn, cs, tp, cp, sid⟩ with h | h
      · exact h
      · simp at h }

/-- Witness for C9 at a concrete successful NEGOTIATE with seed 42. -/
theorem session_id_allocation_witness :
    100000 ≤ (processRequest envMovie 42 ServerWorker.new
        ⟨.setup, "movie".toList, 1, none, none, none⟩).worker.session_id
    ∧ (processRequest envMovie 42 ServerWorker.new
        ⟨.setup, "movie".toList, 1, none, none, none⟩).worker.session_id ≤ 999999 :=
  (session_id_allocation envMovie 42 ServerWorker.new
    ⟨.setup, "movie".toList, 1, none, none, none⟩).2.1 rfl rfl (by decide)

theorem splitOnce_append_sep (sep : Char) (k v : Str) (hk : sep ∉ k) :
    splitOnce sep (k ++ sep :: v) = some (k, v) := by
  induction k with
  | nil => simp [splitOnce]
  | cons c cs ih =>
    have hcs : sep ∉ cs := fun h => hk (List.mem_cons_of_mem _ h)
    have hc : ¬ c = sep := fun h => hk (by rw [h]; exact List.mem_cons_self _ _)
    simp [splitOnce, hc, ih hcs]

theorem splitOnce_eq_none (sep : Char) (l : Str) (hl : sep ∉ l) :
    splitOnce sep l = none := by
  induction l with
  | nil => rfl
  | cons c cs ih =>
    have hcs : sep ∉ cs := fun h => hl (List.mem_cons_of_mem _ h)
    have hc : ¬ c = sep := fun h => hl (by rw [h]; exact List.mem_cons_self _ _)
    simp [splitOnce, hc, ih hcs]

/-- C10: in request and response parsing alike, a header line
`k : v` contributes the lowercased, trimmed key with the trimmed value
(so a later lookup of the constant "cseq" matches 'CSEQ : 5'), a line
without a colon is silently skipped, and a concrete request and
response carrying 'CSEQ : 5' and a colon-free garbage line parse
successfully with sequence number 5. -/
theorem header_line_leniency (k v l : Str) (rest : List Str)
    (hk : ':' ∉ k) (hl : ':' ∉ l) (hlne : l ≠ []) :
    reqHeaderList ((k ++ ':' :: v) :: rest)
      = (lowerStr (trimStr k), trimStr v) :: reqHeaderList rest
    ∧ respHeaderList ((k ++ ':' :: v) :: rest)
      = (lowerStr (trimStr k), trimStr v) :: respHeaderList rest
    ∧ reqHeaderList (l :: rest) = reqHeaderList rest
    ∧ respHeaderList (l :: rest) = respHeaderList rest
    ∧ RtspRequest.parse "SETUP f RTSP/1.0\r\nCSEQ : 5\r\ngarbage\r\n\r\n".toList
      = .ok ⟨.setup, "f".toList, 5, none, none, none⟩
    ∧ RtspResponse.parse "RTSP/1.0 200 OK\r\nCSEQ : 5\r\ngarbage\r\nSession: 3\r\n\r\n".toList
      = .ok ⟨200, 5, 3⟩ := by
  have hne : ((k ++ ':' :: v) :: rest).head? ≠ some [] := by
    cases k <;> simp
  refine ⟨?_, ?_, ?_, ?_, rfl, rfl⟩
  · cases hke : k ++ ':' :: v with
    | nil => cases k <;> simp at hke
    | cons c cs =>
      rw [← hke]
      simp only [reqHeaderList, splitOnce_append_sep ':' k v hk]
      rw [if_neg (by cases k <;> simp)]
  · simp only [respHeaderList, splitOnce_append_sep ':' k v hk]
  · simp only [reqHeaderList, splitOnce_eq_none ':' l hl]
    rw [if_neg (by simpa using hlne)]
  · simp only [respHeaderList, splitOnce_eq_none ':' l hl]

/-- Witness for C10 at the concrete header line 'CSEQ : 5' and the
colon-free line 'garbage'. -/
theorem header_line_leniency_witness :
    reqHeaderList (("CSEQ ".toList ++ ':' :: " 5".toList) :: [])
      = (lowerStr (trimStr "CSEQ ".toList), trimStr " 5".toList) :: reqHeaderList [] :=
  (header_line_leniency "CSEQ ".toList " 5".toList "garbage".toList []
    (by decide) (by decide) (by decide)).1

/-! ## Round-trip toolkit for C8 -/

theorem digitChar_props (m : Nat) (hm : m < 10) :
    (Char.ofNat (48 + m)).toNat = 48 + m
    ∧ (Char.ofNat (48 + m)).isDigit = true := by
  interval_cases m <;> exact ⟨rfl, rfl⟩

theorem digit_char_props (c : Char) (h : c.isDigit = true) :
    isWS c = false ∧ c ≠ '\n' ∧ c ≠ '\r' ∧ c ≠ ':' ∧ c ≠ ';' ∧ c ≠ '+' := by
  have hb : 48 ≤ c.toNat ∧ c.toNat ≤ 57 := by
    simpa [Char.isDigit, Char.le_def, Char.toNat] using h
  have hv : ∀ d : Char, ¬ (48 ≤ d.toNat ∧ d.toNat ≤ 57) → c ≠ d :=
    fun d hd he => hd (he ▸ hb)
  refine ⟨?_, hv '\n' (by decide), hv '\r' (by decide), hv ':' (by decide),
    hv ';' (by decide), hv '+' (by decide)⟩
  simp only [isWS, Bool.or_eq_false_iff, decide_eq_false_iff_not]
  exact ⟨⟨⟨⟨⟨hv ' ' (by decide), hv '\t' (by decide)⟩, hv '\n' (by decide)⟩,
    hv '\x0b' (by decide)⟩, hv '\x0c' (by decide)⟩, hv '\r' (by decide)⟩

theorem natToDigitsFuel_spec :
    ∀ fuel n, n < fuel →
      natToDigitsFuel fuel n ≠ []
      ∧ (∀ c ∈ natToDigitsFuel fuel n, c.isDigit = true)
      ∧ digitsVal (natToDigitsFuel fuel n) = n := by
  intro fuel
  induction fuel with
  | zero => intro n hn; omega
  | succ f ih =>
    intro n hn
    by_cases h10 : n < 10
    · refine ⟨by simp [natToDigitsFuel, h10], ?_, ?_⟩
      · intro c hc
        simp only [natToDigitsFuel, h10, if_true, List.mem_singleton] at hc
        rw [hc]
        exact (digitChar_props n h10).2
      · simp only [natToDigitsFuel, h10, if_true, digitsVal, List.foldl]
        rw [(digitChar_props n h10).1]
        omega
    · have hdiv : n / 10 < f := by omega
      obtain ⟨ihne, ihdig, ihval⟩ := ih (n / 10) hdiv
      have hmod : n % 10 < 10 := Nat.mod_lt _ (by norm_num)
      refine ⟨by simp [natToDigitsFuel, h10], ?_, ?_⟩
      · intro c hc
        simp only [natToDigitsFuel, h10, if_false, ite_false, List.mem_append,
          List.mem_singleton] at hc
        rcases hc with hc | hc
        · exact ihdig c hc
        · rw [hc]; exact (digitChar_props _ hmod).2
      · simp only [natToDigitsFuel, h10, if_false, ite_false, digitsVal,
          List.foldl_append, List.foldl]
        have := (digitChar_props _ hmod).1
        simp only [digitsVal] at ihval
        rw [this, ihval]
        omega

theorem natToDigits_spec (n : Nat) :
    natToDigits n ≠ []
    ∧ (∀ c ∈ natToDigits n, c.isDigit = true)
    ∧ digitsVal (natToDigits n) = n :=
  natToDigitsFuel_spec (n + 1) n (Nat.lt_succ_self n)

theorem parseUInt_natToDigits (bits n : Nat) (h : n < 2 ^ bits) :
    parseUInt bits (natToDigits n) = some n := by
  obtain ⟨hne, hdig, hval⟩ := natToDigits_spec n
  cases hs : natToDigits n with
  | nil => exact absurd hs hne
  | cons c cs =>
    have hc : c.isDigit = true := hdig c (hs ▸ List.mem_cons_self c cs)
    have hcp : ¬ c = '+' := (digit_char_props c hc).2.2.2.2.2
    have hall : (c :: cs).all Char.isDigit = true := by
      rw [← hs]; exact List.all_eq_true.mpr hdig
    have hvcs : digitsVal (c :: cs) = n := hs ▸ hval
    have hhd : ¬ ((c :: cs).head? = some '+') := by simp [hcp]
    simp only [parseUInt, hhd, if_false, ite_false, ne_eq]
    simp [hall, hvcs, h]

theorem dropWhile_isWS_eq_self (s : Str) (hhead : ∀ c ∈ s, isWS c = false) :
    s.dropWhile isWS = s := by
  cases s with
  | nil => rfl
  | cons c cs => simp [List.dropWhile_cons, hhead c (List.mem_cons_self c cs)]

theorem trimStr_no_ws (s : Str) (h : ∀ c ∈ s, isWS c = false) : trimStr s = s := by
  have h2 : ∀ c ∈ s.reverse, isWS c = false := fun c hc => h c (List.mem_reverse.mp hc)
  simp [trimStr, dropWhile_isWS_eq_self s h, dropWhile_isWS_eq_self s.reverse h2]

theorem trimStr_space_left (s : Str) (h : ∀ c ∈ s, isWS c = false) :
    trimStr (' ' :: s) = s := by
  have h2 : ∀ c ∈ s.reverse, isWS c = false := fun c hc => h c (List.mem_reverse.mp hc)
  simp [trimStr, List.dropWhile_cons, isWS, dropWhile_isWS_eq_self s h,
    dropWhile_isWS_eq_self s.reverse h2]

theorem splitSep_append (sep : Char) (xs ys : Str) (h : sep ∉ xs) :
    splitSep sep (xs ++ sep :: ys) = xs :: splitSep sep ys := by
  induction xs with
  | nil => simp [splitSep]
  | cons c cs ih =>
    have hcs : sep ∉ cs := fun hin => h (List.mem_cons_of_mem _ hin)
    have hc : ¬ c = sep := fun he => h (by rw [he]; exact List.mem_cons_self _ _)
    simp [splitSep, hc, ih hcs]

theorem splitSep_no_sep (sep : Char) (xs : Str) (h : sep ∉ xs) :
    splitSep sep xs = [xs] := by
  induction xs with
  | nil => rfl
  | cons c cs ih =>
    have hcs : sep ∉ cs := fun hin => h (List.mem_cons_of_mem _ hin)
    have hc : ¬ c = sep := fun he => h (by rw [he]; exact List.mem_cons_self _ _)
    simp [splitSep, hc, ih hcs]

theorem stripCR_concat (xs : Str) : stripCR (xs ++ ['\r']) = xs := by
  simp [stripCR, List.getLast?_concat]

theorem rustLines_three (l1 l2 l3 : Str) (h1 : '\n' ∉ l1) (h2 : '\n' ∉ l2)
    (h3 : '\n' ∉ l3) :
    rustLines (l1 ++ '\r' :: '\n' :: (l2 ++ '\r' :: '\n' :: (l3 ++ '\r' :: '\n' :: ['\r', '\n'])))
      = [stripCR (l1 ++ ['\r']), stripCR (l2 ++ ['\r']), stripCR (l3 ++ ['\r']), []] := by
  have e1 : l1 ++ '\r' :: '\n' :: (l2 ++ '\r' :: '\n' :: (l3 ++ '\r' :: '\n' :: ['\r', '\n']))
      = (l1 ++ ['\r']) ++ '\n' :: ((l2 ++ ['\r']) ++ '\n' :: ((l3 ++ ['\r']) ++ '\n' :: ['\r', '\n'])) := by
    simp
  have hnr : ∀ l : Str, '\n' ∉ l → '\n' ∉ l ++ ['\r'] := by
    intro l hl hin
    rcases List.mem_append.mp hin with hx | hx
    · exact hl hx
    · simp at hx
  rw [rustLines, e1, splitSep_append _ _ _ (hnr l1 h1), splitSep_append _ _ _ (hnr l2 h2),
    splitSep_append _ _ _ (hnr l3 h3)]
  have etail : splitSep '\n' ['\r', '\n'] = [['\r'], []] := rfl
  rw [etail]
  simp [stripCR_concat]
  rfl

theorem splitWSAux_no_ws (tok : Str) :
    ∀ acc rest, (∀ c ∈ tok, isWS c = false) →
      splitWSAux acc (tok ++ rest) = splitWSAux (tok.reverse ++ acc) rest := by
  induction tok with
  | nil => intro acc rest _; rfl
  | cons c cs ih =>
    intro acc rest h
    have hc : isWS c = false := h c (List.mem_cons_self _ _)
    have hcs : ∀ x ∈ cs, isWS x = false := fun x hx => h x (List.mem_cons_of_mem _ hx)
    rw [List.cons_append]
    rw [show splitWSAux acc (c :: (cs ++ rest)) = splitWSAux (c :: acc) (cs ++ rest) from by
      simp [splitWSAux, hc]]
    rw [ih (c :: acc) rest hcs]
    simp

theorem splitWS_token_space (tok rest : Str) (hne : tok ≠ [])
    (htok : ∀ c ∈ tok, isWS c = false) :
    splitWS (tok ++ ' ' :: rest) = tok :: splitWS rest := by
  rw [splitWS, splitWSAux_no_ws tok [] (' ' :: rest) htok]
  have hrne : ¬ (tok.reverse ++ []).isEmpty = true := by
    simp [List.isEmpty_iff, hne]
  simp only [splitWSAux, isWS, List.append_nil]
  simp [hrne, splitWS, List.isEmpty_iff, hne]

theorem splitWS_single_token (tok : Str) (hne : tok ≠ [])
    (htok : ∀ c ∈ tok, isWS c = false) :
    splitWS tok = [tok] := by
  have := splitWSAux_no_ws tok [] [] htok
  rw [List.append_nil] at this
  rw [splitWS, this]
  simp [splitWSAux, List.isEmpty_iff, hne]

theorem dropPre_append (p s : Str) : dropPre p (p ++ s) = some s := by
  induction p with
  | nil => rfl
  | cons c cs ih => simp [dropPre, ih]

theorem printable_not_ws (c : Char) (h : 33 ≤ c.toNat ∧ c.toNat ≤ 126) :
    isWS c = false := by
  have hv : ∀ d : Char, ¬ (33 ≤ d.toNat ∧ d.toNat ≤ 126) → c ≠ d :=
    fun d hd he => hd (he ▸ h)
  simp only [isWS, Bool.or_eq_false_iff, decide_eq_false_iff_not]
  exact ⟨⟨⟨⟨⟨hv ' ' (by decide), hv '\t' (by decide)⟩, hv '\n' (by decide)⟩,
    hv '\x0b' (by decide)⟩, hv '\x0c' (by decide)⟩, hv '\r' (by decide)⟩

theorem trimStr_drop_space (s : Str) : trimStr (' ' :: s) = trimStr s := by
  simp [trimStr, List.dropWhile_cons, isWS]

theorem trimStr_eq_self_of_ends (s : Str)
    (h1 : ∀ c, s.head? = some c → isWS c = false)
    (h2 : ∀ c, s.getLast? = some c → isWS c = false) : trimStr s = s := by
  have hd : s.dropWhile isWS = s := by
    cases s with
    | nil => rfl
    | cons c cs => simp [List.dropWhile_cons, h1 c rfl]
  have hr : s.reverse.dropWhile isWS = s.reverse := by
    cases hsr : s.reverse with
    | nil => rfl
    | cons c cs =>
      have hlast : s.getLast? = some c := by
        rw [← List.head?_reverse, hsr]; rfl
      simp [List.dropWhile_cons, h2 c hlast]
  rw [trimStr, hd, hr, List.reverse_reverse]

theorem reqHeaderList_cons (k v : Str) (rest : List Str) (hk : ':' ∉ k) :
    reqHeaderList ((k ++ ':' :: v) :: rest)
      = (lowerStr (trimStr k), trimStr v) :: reqHeaderList rest := by
  cases hke : k ++ ':' :: v with
  | nil => cases k <;> simp at hke
  | cons c cs =>
    rw [← hke]
    simp only [reqHeaderList, splitOnce_append_sep ':' k v hk]
    rw [if_neg (by cases k <;> simp)]

theorem parse_session_style (m : Str) (rt : RequestType) (file : Str)
    (cseq sessionId : Nat)
    (hmne : m ≠ []) (hmws : ∀ c ∈ m, isWS c = false) (hmnl : '\n' ∉ m)
    (hmatch : (if m = "SETUP".toList then some RequestType.setup
      else if m = "PLAY".toList then some RequestType.play
      else if m = "PAUSE".toList then some RequestType.pause
      else if m = "TEARDOWN".toList then some RequestType.teardown
      else none) = some rt)
    (hf : file ≠ []) (hfc : ∀ c ∈ file, 33 ≤ c.toNat ∧ c.toNat ≤ 126)
    (hcs : cseq < 2 ^ 32) (hsess : sessionId < 2 ^ 32) :
    RtspRequest.parse ((m ++ ' ' :: (file ++ ' ' :: "RTSP/1.0".toList)) ++ '\r' :: '\n' ::
        (("CSeq".toList ++ ':' :: ' ' :: natToDigits cseq) ++ '\r' :: '\n' ::
          (("Session".toList ++ ':' :: ' ' :: natToDigits sessionId) ++ '\r' :: '\n' :: ['\r', '\n'])))
      = .ok ⟨rt, file, cseq, none, none, some sessionId⟩ := by
  obtain ⟨hcne, hcdig, _⟩ := natToDigits_spec cseq
  obtain ⟨hsne, hsdig, _⟩ := natToDigits_spec sessionId
  have hfile_ws : ∀ c ∈ file, isWS c = false := fun c hc => printable_not_ws c (hfc c hc)
  have hcws : ∀ c ∈ natToDigits cseq, isWS c = false :=
    fun c hc => (digit_char_props c (hcdig c hc)).1
  have hsws : ∀ c ∈ natToDigits sessionId, isWS c = false :=
    fun c hc => (digit_char_props c (hsdig c hc)).1
  have hnl1 : '\n' ∉ (m ++ ' ' :: (file ++ ' ' :: "RTSP/1.0".toList)) := by
    intro hin
    rcases List.mem_append.mp hin with hx | hx
    · exact hmnl hx
    · rcases List.mem_cons.mp hx with hx | hx
      · exact absurd hx (by decide)
      · rcases List.mem_append.mp hx with hx | hx
        · exact absurd (hfc _ hx) (by decide)
        · rcases List.mem_cons.mp hx with hx | hx
          · exact absurd hx (by decide)
          · exact absurd hx (by decide)
  have hnl2 : '\n' ∉ ("CSeq".toList ++ ':' :: ' ' :: natToDigits cseq) := by
    intro hin
    rcases List.mem_append.mp hin with hx | hx
    · exact absurd hx (by decide)
    · rcases List.mem_cons.mp hx with hx | hx
      · exact absurd hx (by decide)
      · rcases List.mem_cons.mp hx with hx | hx
        · exact absurd hx (by decide)
        · exact absurd (hcdig _ hx) (by decide)
  have hnl3 : '\n' ∉ ("Session".toList ++ ':' :: ' ' :: natToDigits sessionId) := by
    intro hin
    rcases List.mem_append.mp hin with hx | hx
    · exact absurd hx (by decide)
    · rcases List.mem_cons.mp hx with hx | hx
      · exact absurd hx (by decide)
      · rcases List.mem_cons.mp hx with hx | hx
        · exact absurd hx (by decide)
        · exact absurd (hsdig _ hx) (by decide)
  have hlines := rustLines_three _ _ _ hnl1 hnl2 hnl3
  simp only [stripCR_concat] at hlines
  have hsw : splitWS (m ++ ' ' :: (file ++ ' ' :: "RTSP/1.0".toList))
      = [m, file, "RTSP/1.0".toList] := by
    rw [splitWS_token_space m _ hmne hmws, splitWS_token_space file _ hf hfile_ws]
    rw [show splitWS "RTSP/1.0".toList = ["RTSP/1.0".toList] from rfl]
  have hh : reqHeaderList
      [("CSeq".toList ++ ':' :: ' ' :: natToDigits cseq),
        ("Session".toList ++ ':' :: ' ' :: natToDigits sessionId), []]
      = [("cseq".toList, natToDigits cseq), ("session".toList, natToDigits sessionId)] := by
    rw [reqHeaderList_cons _ _ _ (by decide), reqHeaderList_cons _ _ _ (by decide)]
    rw [trimStr_drop_space, trimStr_drop_space,
      trimStr_no_ws _ hcws, trimStr_no_ws _ hsws]
    rw [show lowerStr (trimStr "CSeq".toList) = "cseq".toList from rfl,
      show lowerStr (trimStr "Session".toList) = "session".toList from rfl,
      show reqHeaderList [[]] = [] from rfl]
  have hg1 : getHeader
      [("cseq".toList, natToDigits cseq), ("session".toList, natToDigits sessionId)]
      "cseq".toList = some (natToDigits cseq) := by
    simp only [getHeader, List.foldl_cons, List.foldl_nil]
    rw [if_neg (by decide)]
    simp
  have hg2 : getHeader
      [("cseq".toList, natToDigits cseq), ("session".toList, natToDigits sessionId)]
      "session".toList = some (natToDigits sessionId) := by
    simp only [getHeader, List.foldl_cons, List.foldl_nil]
    simp
  have hg3 : getHeader
      [("cseq".toList, natToDigits cseq), ("session".toList, natToDigits sessionId)]
      "transport".toList = none := by
    simp only [getHeader, List.foldl_cons, List.foldl_nil]
    rw [if_neg (by decide), if_neg (by decide)]
  simp only [RtspRequest.parse, hlines, hsw, hmatch, hh, hg1, hg2, hg3,
    parseUInt_natToDigits 32 cseq hcs, parseUInt_natToDigits 32 sessionId hsess]

theorem trimStr_concat_digits (pre : Str) (n : Nat) (c0 : Char) (rest0 : Str)
    (hpre : pre = c0 :: rest0) (hc0 : isWS c0 = false) :
    trimStr (pre ++ natToDigits n) = pre ++ natToDigits n := by
  obtain ⟨hne, hdig, _⟩ := natToDigits_spec n
  apply trimStr_eq_self_of_ends
  · intro c hc
    rw [hpre] at hc
    simp only [List.cons_append, List.head?_cons, Option.some.injEq] at hc
    rw [← hc]
    exact hc0
  · intro c hc
    rw [List.getLast?_append] at hc
    obtain ⟨d, hd⟩ : ∃ d, (natToDigits n).getLast? = some d := by
      cases h' : (natToDigits n).getLast? with
      | none => exact absurd (List.getLast?_eq_none_iff.mp h') hne
      | some d => exact ⟨d, rfl⟩
    rw [hd, Option.or_some, Option.some.injEq] at hc
    have hdm : d ∈ natToDigits n := by
      obtain ⟨ys, hys⟩ := List.getLast?_eq_some_iff.mp hd
      rw [hys]
      exact List.mem_append.mpr (Or.inr (List.mem_singleton.mpr rfl))
    rw [← hc]
    exact (digit_char_props d (hdig d hdm)).1

theorem parse_setup_style (file : Str) (cseq rtpPort : Nat)
    (hf : file ≠ []) (hfc : ∀ c ∈ file, 33 ≤ c.toNat ∧ c.toNat ≤ 126)
    (hcs : cseq < 2 ^ 32) (hport : rtpPort < 2 ^ 16) :
    RtspRequest.parse
        (("SETUP".toList ++ ' ' :: (file ++ ' ' :: "RTSP/1.0".toList)) ++ '\r' :: '\n' ::
          (("CSeq".toList ++ ':' :: ' ' :: natToDigits cseq) ++ '\r' :: '\n' ::
            (("Transport".toList ++ ':' :: ' ' ::
                ("RTP/UDP; client_port=".toList ++ natToDigits rtpPort)) ++ '\r' :: '\n' :: ['\r', '\n'])))
      = .ok ⟨.setup, file, cseq,
          some ("RTP/UDP; client_port=".toList ++ natToDigits rtpPort),
          some rtpPort, none⟩ := by
  obtain ⟨hcne, hcdig, _⟩ := natToDigits_spec cseq
  obtain ⟨hpne, hpdig, _⟩ := natToDigits_spec rtpPort
  have hfile_ws : ∀ c ∈ file, isWS c = false := fun c hc => printable_not_ws c (hfc c hc)
  have hcws : ∀ c ∈ natToDigits cseq, isWS c = false :=
    fun c hc => (digit_char_props c (hcdig c hc)).1
  have hnl1 : '\n' ∉ ("SETUP".toList ++ ' ' :: (file ++ ' ' :: "RTSP/1.0".toList)) := by
    intro hin
    rcases List.mem_append.mp hin with hx | hx
    · exact absurd hx (by decide)
    · rcases List.mem_cons.mp hx with hx | hx
      · exact absurd hx (by decide)
      · rcases List.mem_append.mp hx with hx | hx
        · exact absurd (hfc _ hx) (by decide)
        · rcases List.mem_cons.mp hx with hx | hx
          · exact absurd hx (by decide)
          · exact absurd hx (by decide)
  have hnl2 : '\n' ∉ ("CSeq".toList ++ ':' :: ' ' :: natToDigits cseq) := by
    intro hin
    rcases List.mem_append.mp hin with hx | hx
    · exact absurd hx (by decide)
    · rcases List.mem_cons.mp hx with hx | hx
      · exact absurd hx (by decide)
      · rcases List.mem_cons.mp hx with hx | hx
        · exact absurd hx (by decide)
        · exact absurd (hcdig _ hx) (by decide)
  have hnl3 : '\n' ∉ ("Transport".toList ++ ':' :: ' ' ::
      ("RTP/UDP; client_port=".toList ++ natToDigits rtpPort)) := by
    intro hin
    rcases List.mem_append.mp hin with hx | hx
    · exact absurd hx (by decide)
    · rcases List.mem_cons.mp hx with hx | hx
      · exact absurd hx (by decide)
      · rcases List.mem_cons.mp hx with hx | hx
        · exact absurd hx (by decide)
        · rcases List.mem_append.mp hx with hx | hx
          · exact absurd hx (by decide)
          · exact absurd (hpdig _ hx) (by decide)
  have hlines := rustLines_three _ _ _ hnl1 hnl2 hnl3
  simp only [stripCR_concat] at hlines
  have hsw : splitWS ("SETUP".toList ++ ' ' :: (file ++ ' ' :: "RTSP/1.0".toList))
      = ["SETUP".toList, file, "RTSP/1.0".toList] := by
    rw [splitWS_token_space _ _ (by decide) (by decide),
      splitWS_token_space file _ hf hfile_ws]
    rw [show splitWS "RTSP/1.0".toList = ["RTSP/1.0".toList] from rfl]
  have htv : trimStr (' ' :: ("RTP/UDP; client_port=".toList ++ natToDigits rtpPort))
      = "RTP/UDP; client_port=".toList ++ natToDigits rtpPort := by
    rw [trimStr_drop_space]
    exact trimStr_concat_digits _ rtpPort 'R' _ rfl (by decide)
  have hh : reqHeaderList
      [("CSeq".toList ++ ':' :: ' ' :: natToDigits cseq),
        ("Transport".toList ++ ':' :: ' ' ::
          ("RTP/UDP; client_port=".toList ++ natToDigits rtpPort)), []]
      = [("cseq".toList, natToDigits cseq),
          ("transport".toList, "RTP/UDP; client_port=".toList ++ natToDigits rtpPort)] := by
    rw [reqHeaderList_cons _ _ _ (by decide), reqHeaderList_cons _ _ _ (by decide)]
    rw [trimStr_drop_space, trimStr_no_ws _ hcws, htv]
    rw [show lowerStr (trimStr "CSeq".toList) = "cseq".toList from rfl,
      show lowerStr (trimStr "Transport".toList) = "transport".toList from rfl,
      show reqHeaderList [[]] = [] from rfl]
  have hg1 : getHeader
      [("cseq".toList, natToDigits cseq),
        ("transport".toList, "RTP/UDP; client_port=".toList ++ natToDigits rtpPort)]
      "cseq".toList = some (natToDigits cseq) := by
    simp only [getHeader, List.foldl_cons, List.foldl_nil]
    rw [if_neg (by decide)]
    simp
  have hg2 : getHeader
      [("cseq".toList, natToDigits cseq),
        ("transport".toList, "RTP/UDP; client_port=".toList ++ natToDigits rtpPort)]
      "session".toList = none := by
    simp only [getHeader, List.foldl_cons, List.foldl_nil]
    rw [if_neg (by decide), if_neg (by decide)]
  have hg3 : getHeader
      [("cseq".toList, natToDigits cseq),
        ("transport".toList, "RTP/UDP; client_port=".toList ++ natToDigits rtpPort)]
      "transport".toList
      = some ("RTP/UDP; client_port=".toList ++ natToDigits rtpPort) := by
    simp only [getHeader, List.foldl_cons, List.foldl_nil]
    simp
  have hsplit : splitSep ';' ("RTP/UDP; client_port=".toList ++ natToDigits rtpPort)
      = ["RTP/UDP".toList, " client_port=".toList ++ natToDigits rtpPort] := by
    rw [show ("RTP/UDP; client_port=".toList ++ natToDigits rtpPort : Str)
        = "RTP/UDP".toList ++ ';' :: (" client_port=".toList ++ natToDigits rtpPort) from rfl]
    rw [splitSep_append ';' _ _ (by decide), splitSep_no_sep ';' _ ?hns]
    case hns =>
      intro hin
      rcases List.mem_append.mp hin with hx | hx
      · exact absurd hx (by decide)
      · exact absurd (hpdig _ hx) (by decide)
  have hfind : List.findSome?
      (fun part => dropPre "client_port=".toList (trimStr part))
      ["RTP/UDP".toList, " client_port=".toList ++ natToDigits rtpPort]
      = some (natToDigits rtpPort) := by
    rw [List.findSome?_cons]
    rw [show dropPre "client_port=".toList (trimStr "RTP/UDP".toList) = none from rfl]
    rw [List.findSome?_cons]
    rw [show (" client_port=".toList ++ natToDigits rtpPort : Str)
      = ' ' :: ("client_port=".toList ++ natToDigits rtpPort) from rfl]
    rw [trimStr_drop_space,
      trimStr_concat_digits "client_port=".toList rtpPort 'c' "lient_port=".toList
        (by rfl) (by decide),
      dropPre_append]
  have htrim_digits : trimStr (natToDigits rtpPort) = natToDigits rtpPort :=
    trimStr_no_ws _ (fun c hc => (digit_char_props c (hpdig c hc)).1)
  simp only [RtspRequest.parse, hlines, hsw, hh, hg1, hg2, hg3, hsplit, hfind,
    htrim_digits, parseUInt_natToDigits 32 cseq hcs, parseUInt_natToDigits 16 rtpPort hport]
  simp

/-- C8 (amended): for every command, every non-empty resource name of
printable non-space ASCII characters, and all representable sequence
number, session identifier and client port values, parsing the text
built by the client's request formatting reproduces the method, the
resource, the sequence number, and the session identifier (for
START/PAUSE/STOP) resp. the client port (for NEGOTIATE). -/
theorem format_parse_roundtrip (cmd : ToAsync) (file : Str) (cseq sessionId rtpPort : Nat)
    (hf : file ≠ []) (hfc : ∀ c ∈ file, 33 ≤ c.toNat ∧ c.toNat ≤ 126)
    (hcs : cseq < 2 ^ 32) (hsess : sessionId < 2 ^ 32) (hport : rtpPort < 2 ^ 16) :
    RtspRequest.parse (formatRequest cmd file cseq sessionId rtpPort)
      = .ok { request_type := methodOf cmd
              filename := file
              cseq := cseq
              transport := if cmd = .setup
                then some ("RTP/UDP; client_port=".toList ++ natToDigits rtpPort) else none
              client_port := if cmd = .setup then some rtpPort else none
              session_id := if cmd = .setup then none else some sessionId } := by
  cases cmd
  case setup =>
    have he : formatRequest .setup file cseq sessionId rtpPort
        = ("SETUP".toList ++ ' ' :: (file ++ ' ' :: "RTSP/1.0".toList)) ++ '\r' :: '\n' ::
            (("CSeq".toList ++ ':' :: ' ' :: natToDigits cseq) ++ '\r' :: '\n' ::
              (("Transport".toList ++ ':' :: ' ' ::
                  ("RTP/UDP; client_port=".toList ++ natToDigits rtpPort))
                ++ '\r' :: '\n' :: ['\r', '\n'])) := by
      simp only [formatRequest, RTSP_VERSION_STR, List.append_assoc, List.cons_append,
        List.nil_append]
      rfl
    rw [he, parse_setup_style file cseq rtpPort hf hfc hcs hport]
    simp [methodOf]
  case play =>
    have he : formatRequest .play file cseq sessionId rtpPort
        = ("PLAY".toList ++ ' ' :: (file ++ ' ' :: "RTSP/1.0".toList)) ++ '\r' :: '\n' ::
            (("CSeq".toList ++ ':' :: ' ' :: natToDigits cseq) ++ '\r' :: '\n' ::
              (("Session".toList ++ ':' :: ' ' :: natToDigits sessionId)
                ++ '\r' :: '\n' :: ['\r', '\n'])) := by
      simp only [formatRequest, RTSP_VERSION_STR, List.append_assoc, List.cons_append,
        List.nil_append]
      rfl
    rw [he, parse_session_style "PLAY".toList .play file cseq sessionId (by decide)
      (by decide) (by decide) (by decide) hf hfc hcs hsess]
    simp [methodOf]
  case pause =>
    have he : formatRequest .pause file cseq sessionId rtpPort
        = ("PAUSE".toList ++ ' ' :: (file ++ ' ' :: "RTSP/1.0".toList)) ++ '\r' :: '\n' ::
            (("CSeq".toList ++ ':' :: ' ' :: natToDigits cseq) ++ '\r' :: '\n' ::
              (("Session".toList ++ ':' :: ' ' :: natToDigits sessionId)
                ++ '\r' :: '\n' :: ['\r', '\n'])) := by
      simp only [formatRequest, RTSP_VERSION_STR, List.append_assoc, List.cons_append,
        List.nil_append]
      rfl
    rw [he, parse_session_style "PAUSE".toList .pause file cseq sessionId (by decide)
      (by decide) (by decide) (by decide) hf hfc hcs hsess]
    simp [methodOf]
  case teardown =>
    have he : formatRequest .teardown file cseq sessionId rtpPort
        = ("TEARDOWN".toList ++ ' ' :: (file ++ ' ' :: "RTSP/1.0".toList)) ++ '\r' :: '\n' ::
            (("CSeq".toList ++ ':' :: ' ' :: natToDigits cseq) ++ '\r' :: '\n' ::
              (("Session".toList ++ ':' :: ' ' :: natToDigits sessionId)
                ++ '\r' :: '\n' :: ['\r', '\n'])) := by
      simp only [formatRequest, RTSP_VERSION_STR, List.append_assoc, List.cons_append,
        List.nil_append]
      rfl
    rw [he, parse_session_style "TEARDOWN".toList .teardown file cseq sessionId (by decide)
      (by decide) (by decide) (by decide) hf hfc hcs hsess]
    simp [methodOf]

/-- Witness for C8 at a concrete START request. -/
theorem format_parse_roundtrip_witness :
    RtspRequest.parse (formatRequest .play "movie".toList 2 100000 0)
      = .ok { request_type := methodOf .play
              filename := "movie".toList
              cseq := 2
              transport := if ToAsync.play = .setup
                then some ("RTP/UDP; client_port=".toList ++ natToDigits 0) else none
              client_port := if ToAsync.play = .setup then some 0 else none
              session_id := if ToAsync.play = .setup then none else some 100000 } :=
  format_parse_roundtrip .play "movie".toList 2 100000 0 (by decide) (by decide)
    (by decide) (by decide) (by decide)

/-- C8 counterexample: a representable resource name containing a space
does not survive the round trip — the parsed filename is the first
token only — refuting the claim for all representable resource
names. -/
theorem format_parse_roundtrip_fails_on_space :
    RtspRequest.parse (formatRequest .setup ['a', ' ', 'b'] 1 0 7)
      = .ok ⟨.setup, ['a'], 1, some "RTP/UDP; client_port=7".toList, some 7, none⟩
    ∧ (['a'] : Str) ≠ ['a', ' ', 'b'] := by
  exact ⟨rfl, by decide⟩

end StreamingCore
